import Mathlib

/-!
Shallow embedding of the OpenGL render-target (framebuffer) management
subsystem of `src/igl/opengl/Framebuffer.cpp`, together with theorems
checking the specification's claims against that code.

Driver (`IContext`) calls are modelled as a trace of events (`Ev`): every
modelled operation returns, besides its result and updated object state,
the list of driver calls it issued, in order.  Texture references
(`std::shared_ptr<ITexture>`) are modelled as natural-number handles
(`none` = `nullptr`); the texture properties the code queries live in a
heap `Nat → TextureInfo` carried by the modelled context.  Machine floats
(clear color, clear depth) are only passed through to the driver verbatim
by this code, so they are modelled as opaque numeric tokens.
-/

namespace IglGL

/-- GL enumerant values used by `Framebuffer.cpp` (from the GL headers). -/
def GL_FRAMEBUFFER : Nat := 0x8D40
def GL_READ_FRAMEBUFFER : Nat := 0x8CA8
def GL_DRAW_FRAMEBUFFER : Nat := 0x8CA9
def GL_RENDERBUFFER : Nat := 0x8D41
def GL_COLOR_ATTACHMENT0 : Nat := 0x8CE0
def GL_DEPTH_ATTACHMENT : Nat := 0x8D00
def GL_STENCIL_ATTACHMENT : Nat := 0x8D20
def GL_COLOR_BUFFER_BIT : Nat := 0x4000
def GL_DEPTH_BUFFER_BIT : Nat := 0x100
def GL_STENCIL_BUFFER_BIT : Nat := 0x400
def GL_STENCIL_TEST : Nat := 0x0B90
def GL_FRAMEBUFFER_SRGB : Nat := 0x8DB9
def GL_PACK_ALIGNMENT : Nat := 0x0D05
def GL_RGBA : Nat := 0x1908
def GL_RGBA_INTEGER : Nat := 0x8D99
def GL_UNSIGNED_BYTE : Nat := 0x1401
def GL_UNSIGNED_INT : Nat := 0x1405
def GL_RENDERBUFFER_BINDING : Nat := 0x8CA7
def GL_READ_FRAMEBUFFER_BINDING : Nat := 0x8CAA
def GL_DRAW_FRAMEBUFFER_BINDING : Nat := 0x8CA6
def GL_FRAMEBUFFER_BINDING : Nat := 0x8CA6

/-- Texture pixel formats; the code only branches on `RGBA_UInt32`
(`Framebuffer.cpp:167`), the others stand for the remaining formats. -/
inductive TextureFormat
  | RGBA_UInt32
  | RGBA_UNorm8
  | BGRA_SRGB
  | Z_UNorm24
  | S8_UInt8
  deriving DecidableEq, Repr

/-- Texture types; `bind` branches on `Cube` (`Framebuffer.cpp:481`). -/
inductive TextureType
  | TwoD
  | TwoDArray
  | ThreeD
  | Cube
  deriving DecidableEq, Repr

/-- `igl::FramebufferMode` (`attachAsColor` dispatch, `Framebuffer.cpp:559`). -/
inductive FramebufferMode
  | Mono
  | Stereo
  | Multiview
  deriving DecidableEq, Repr

/-- `igl::LoadAction` (RenderPass.h is not under src/; constructors named in
`Framebuffer.cpp`: `LoadAction::Clear`, and the spec lists Load, Clear,
DontCare). -/
inductive LoadAction
  | DontCare
  | Load
  | Clear
  deriving DecidableEq, Repr

/-- `igl::StoreAction`; `unbind` branches on `!= Store` (`Framebuffer.cpp:531`). -/
inductive StoreAction
  | DontCare
  | Store
  deriving DecidableEq, Repr

/-- Result codes.  Modelled from the spec: `Result.h` is not under src/.
The constructors `Ok`, `ArgumentInvalid`, `Unsupported`, `Unimplemented`
and `RuntimeError` are all named in the sources; `AlreadyInitialized` is
the additional code named by the spec's error taxonomy (spec section 7). -/
inductive Code
  | Ok
  | ArgumentInvalid
  | Unsupported
  | Unimplemented
  | RuntimeError
  | AlreadyInitialized
  deriving DecidableEq, Repr

/-- `igl::Result`: a code plus a message. -/
structure Result where
  code : Code
  message : String
  deriving DecidableEq, Repr

def Result.isOk (r : Result) : Bool := r.code = Code.Ok

def Result.ok : Result := ⟨Code.Ok, ""⟩

/-- The driver's framebuffer-completeness status, as reported by
`context.checkFramebufferStatus` (the cases of `Framebuffer.cpp:52-68`). -/
inductive FbStatus
  | complete
  | incompleteAttachment
  | incompleteMissingAttachment
  | incompleteDimensions
  | unsupported
  | unknown (status : Nat)
  deriving DecidableEq, Repr

/-- Properties of one texture/render-buffer resource, as queried by the
framebuffer code through the `ITexture` interface (the `Texture`
implementation is not under src/, so these are the values its accessors
report).  `alignmentVal` models the value `Texture::getAlignment` returns
for this texture (not under src/; no claim depends on it). -/
structure TextureInfo where
  format : TextureFormat
  texType : TextureType
  numLayers : Nat
  samples : Nat
  srgb : Bool
  implicitStorage : Bool
  width : Nat
  height : Nat
  alignmentVal : Nat
  deriving Repr

/-- A default texture: plain 2D color texture. -/
def TextureInfo.default : TextureInfo :=
  ⟨TextureFormat.RGBA_UNorm8, TextureType.TwoD, 1, 1, false, false, 4, 4, 4⟩

/-- The modelled `IContext`: capability flags (`deviceFeatures`), the
ambient driver state read by the code, and the texture heap resolving
texture handles to their properties. -/
structure Ctx where
  /-- `DeviceFeatures::ReadWriteFramebuffer` -/
  readWriteFramebuffer : Bool
  /-- `DeviceFeatures::SRGB` -/
  srgbCap : Bool
  /-- `InternalFeatures::InvalidateFramebuffer` -/
  invalidateCap : Bool
  /-- `TextureFeatures::TextureInteger` -/
  textureIntegerCap : Bool
  /-- whether the build targets OpenGL ES (`IGL_OPENGL_ES`) -/
  openglES : Bool
  /-- what `context.checkFramebufferStatus(GL_FRAMEBUFFER)` reports -/
  fbStatus : FbStatus
  /-- ambient `GL_RENDERBUFFER_BINDING` -/
  renderbufferBinding : Nat
  /-- ambient `GL_FRAMEBUFFER_BINDING` -/
  framebufferBinding : Nat
  /-- ambient `GL_READ_FRAMEBUFFER_BINDING` -/
  readFramebufferBinding : Nat
  /-- ambient `GL_DRAW_FRAMEBUFFER_BINDING` -/
  drawFramebufferBinding : Nat
  /-- texture handle → texture properties -/
  heap : Nat → TextureInfo

/-- Driver-call events, one constructor per `IContext` call (or virtual
`Texture` attach/detach call) issued by `Framebuffer.cpp`.  `assertFail`
records a debug-assert path (`IGL_ASSERT_MSG(0, ...)` /
`IGL_ASSERT_NOT_IMPLEMENTED`) that issues no driver call. -/
inductive Ev
  | getIntegerv (pname : Nat)
  | bindFramebuffer (target fbid : Nat)
  | bindRenderbuffer (target rbid : Nat)
  | genFramebuffers (fbid : Nat)
  | deleteFramebuffers (fbid : Nat)
  | drawBuffersCall (bufs : List Nat)
  | texAttachAsColor (tex index face mipmapLevel : Nat)
  | texDetachAsColor (tex index : Nat)
  | texAttachAsDepth (tex : Nat)
  | texAttachAsStencil (tex : Nat)
  | fbTexMultisampleMultiview (target attachment tex level samples baseView numViews : Nat)
  | fbTexMultiview (target attachment tex level baseView numViews : Nat)
  | framebufferTextureLayer (target attachment tex level layer : Nat)
  | enable (cap : Nat)
  | disable (cap : Nat)
  | colorMask (r g b a : Bool)
  | clearColor (c : Nat)
  | depthMask (flag : Bool)
  | clearDepthf (d : Nat)
  | stencilMask (m : Nat)
  | clearStencil (s : Nat)
  | clearCall (mask : Nat)
  | invalidateFramebuffer (target : Nat) (attachments : List Nat)
  | pixelStorei (pname param : Nat)
  | flush
  | checkFramebufferStatus
  | copyTexSubImage2D (x y w h : Nat)
  | readPixels (x y w h format pixelType : Nat)
  | assertFail
  deriving DecidableEq, Repr

/-- `checkFramebufferStatus` (`Framebuffer.cpp:43-72`): queries the driver
status and translates non-complete statuses into a `RuntimeError` result
with the symbolic (or numeric) status name as message. -/
def checkFramebufferStatusR (ctx : Ctx) : Result × List Ev :=
  let r : Result :=
    match ctx.fbStatus with
    | FbStatus.complete => ⟨Code.Ok, ""⟩
    | FbStatus.incompleteAttachment =>
        ⟨Code.RuntimeError, "GL_FRAMEBUFFER_INCOMPLETE_ATTACHMENT"⟩
    | FbStatus.incompleteMissingAttachment =>
        ⟨Code.RuntimeError, "GL_FRAMEBUFFER_INCOMPLETE_MISSING_ATTACHMENT"⟩
    | FbStatus.incompleteDimensions =>
        ⟨Code.RuntimeError, "GL_FRAMEBUFFER_INCOMPLETE_DIMENSIONS"⟩
    | FbStatus.unsupported => ⟨Code.RuntimeError, "GL_FRAMEBUFFER_UNSUPPORTED"⟩
    | FbStatus.unknown s =>
        ⟨Code.RuntimeError, "GL_FRAMEBUFFER unknown error: " ++ toString s⟩
  (r, [Ev.checkFramebufferStatus])

/-- The state captured by `FramebufferBindingGuard` (fields initialized to
0 by the constructor's initializer list, `Framebuffer.cpp:76-81`). -/
structure FramebufferBindingGuard where
  currentRenderbuffer : Nat
  currentFramebuffer : Nat
  currentReadFramebuffer : Nat
  currentDrawFramebuffer : Nat
  deriving DecidableEq, Repr

/-- `FramebufferBindingGuard` constructor (`Framebuffer.cpp:76-96`): reads
the render-buffer binding unconditionally; reads (and stores) framebuffer
bindings only when the ambient framebuffer is complete — otherwise the
fields keep their zero-initialized sentinel values. -/
def mkGuard (ctx : Ctx) : FramebufferBindingGuard × List Ev :=
  let rb := ctx.renderbufferBinding
  let (st, stEv) := checkFramebufferStatusR ctx
  if st.isOk then
    if ctx.readWriteFramebuffer then
      (⟨rb, 0, ctx.readFramebufferBinding, ctx.drawFramebufferBinding⟩,
        [Ev.getIntegerv GL_RENDERBUFFER_BINDING] ++ stEv ++
          [Ev.getIntegerv GL_READ_FRAMEBUFFER_BINDING,
           Ev.getIntegerv GL_DRAW_FRAMEBUFFER_BINDING])
    else
      (⟨rb, ctx.framebufferBinding, 0, 0⟩,
        [Ev.getIntegerv GL_RENDERBUFFER_BINDING] ++ stEv ++
          [Ev.getIntegerv GL_FRAMEBUFFER_BINDING])
  else
    (⟨rb, 0, 0, 0⟩, [Ev.getIntegerv GL_RENDERBUFFER_BINDING] ++ stEv)

/-- `FramebufferBindingGuard` destructor (`Framebuffer.cpp:98-107`):
unconditionally rebinds the stored framebuffer binding(s), then the
stored render-buffer binding. -/
def guardRestore (ctx : Ctx) (g : FramebufferBindingGuard) : List Ev :=
  (if ctx.readWriteFramebuffer then
    [Ev.bindFramebuffer GL_READ_FRAMEBUFFER g.currentReadFramebuffer,
     Ev.bindFramebuffer GL_DRAW_FRAMEBUFFER g.currentDrawFramebuffer]
  else
    [Ev.bindFramebuffer GL_FRAMEBUFFER g.currentFramebuffer]) ++
  [Ev.bindRenderbuffer GL_RENDERBUFFER g.currentRenderbuffer]

/-- `FramebufferDesc::AttachmentDesc`: primary texture plus optional
resolve texture, both shared references (handles; `none` = `nullptr`). -/
structure AttachmentDesc where
  texture : Option Nat
  resolveTexture : Option Nat
  deriving DecidableEq, Repr

/-- Default-constructed attachment: both references null. -/
def AttachmentDesc.empty : AttachmentDesc := ⟨none, none⟩

/-- `igl::FramebufferDesc` (header not under src/): a sparse associative
mapping `attachmentIndex → AttachmentDesc` for color, one depth and one
stencil attachment, and a rendering mode.  The map is modelled as an
association list with unique keys, kept in the container's iteration
order. -/
structure FramebufferDesc where
  colorAttachments : List (Nat × AttachmentDesc)
  depthAttachment : AttachmentDesc
  stencilAttachment : AttachmentDesc
  mode : FramebufferMode
  deriving DecidableEq, Repr

/-- Default-constructed descriptor (`FramebufferDesc resolveDesc;` at
`Framebuffer.cpp:406`): empty map, null depth/stencil, Mono mode. -/
def FramebufferDesc.empty : FramebufferDesc :=
  ⟨[], AttachmentDesc.empty, AttachmentDesc.empty, FramebufferMode.Mono⟩

/-- `map.find(k)` on the color-attachment map. -/
def mapFind (l : List (Nat × AttachmentDesc)) (k : Nat) : Option AttachmentDesc :=
  (l.find? (fun p => p.1 == k)).map (·.2)

/-- `map.erase(k)` on the color-attachment map. -/
def mapErase (l : List (Nat × AttachmentDesc)) (k : Nat) : List (Nat × AttachmentDesc) :=
  l.filter (fun p => p.1 ≠ k)

/-- `colorAttachments[0].texture = t` (`Framebuffer.cpp:322`): `operator[]`
default-constructs the entry if key 0 is absent (a `std::map` inserts it
at its sorted position, the front for key 0), then `.texture` is set. -/
def mapSetTexture0 (l : List (Nat × AttachmentDesc)) (t : Option Nat) :
    List (Nat × AttachmentDesc) :=
  match mapFind l 0 with
  | some _ => l.map (fun p => if p.1 = 0 then (0, { p.2 with texture := t }) else p)
  | none => (0, { AttachmentDesc.empty with texture := t }) :: l

/-- One color attachment's slice of `igl::RenderPassDesc` (header not under
src/; fields as read by `Framebuffer.cpp`: loadAction, storeAction,
clearColor, layer, mipmapLevel).  Clear values are opaque tokens. -/
structure ColorPassAttachment where
  loadAction : LoadAction
  storeAction : StoreAction
  clearColor : Nat
  layer : Nat
  mipmapLevel : Nat
  deriving DecidableEq, Repr

/-- The depth slice of `igl::RenderPassDesc`. -/
structure DepthPassAttachment where
  loadAction : LoadAction
  storeAction : StoreAction
  clearDepth : Nat
  deriving DecidableEq, Repr

/-- The stencil slice of `igl::RenderPassDesc`. -/
structure StencilPassAttachment where
  loadAction : LoadAction
  storeAction : StoreAction
  clearStencil : Nat
  deriving DecidableEq, Repr

/-- `igl::RenderPassDesc`.  The code indexes `colorAttachments[i]`
directly (a vector the caller must have filled); the per-index
configuration is modelled as a total function. -/
structure RenderPassDesc where
  colorAttachments : Nat → ColorPassAttachment
  depthAttachment : DepthPassAttachment
  stencilAttachment : StencilPassAttachment

/-- Default pass config (used only as the value of the cached
`renderPass_` member before any `bind`; never load-bearing). -/
def RenderPassDesc.default : RenderPassDesc :=
  ⟨fun _ => ⟨LoadAction.DontCare, StoreAction.DontCare, 0, 0, 0⟩,
   ⟨LoadAction.DontCare, StoreAction.DontCare, 0⟩,
   ⟨LoadAction.DontCare, StoreAction.DontCare, 0⟩⟩

/-- The non-recursive members of `CustomFramebuffer`: the owned native
framebuffer id (`frameBufferID_`, 0 before creation), the current
descriptor (`renderTarget_`), the `initialized_` flag, and the pass
config cached by `bind` (`renderPass_`). -/
structure FBCore where
  frameBufferID : Nat
  renderTarget : FramebufferDesc
  initialized : Bool
  renderPass : RenderPassDesc

/-- `igl::opengl::CustomFramebuffer`: its members plus the owned,
lazily-created resolve framebuffer of the same type
(`resolveFramebuffer`, `Framebuffer.cpp:442`). -/
inductive CustomFramebuffer
  | mk (core : FBCore) (resolveFramebuffer : Option CustomFramebuffer)

def CustomFramebuffer.core : CustomFramebuffer → FBCore
  | .mk c _ => c

def CustomFramebuffer.resolveFramebuffer : CustomFramebuffer → Option CustomFramebuffer
  | .mk _ r => r

def CustomFramebuffer.withCore : CustomFramebuffer → FBCore → CustomFramebuffer
  | .mk _ r, c => .mk c r

/-- A freshly constructed `CustomFramebuffer` (`make_shared<CustomFramebuffer>(ctx)`,
`Framebuffer.cpp:437`): id 0, empty descriptor, not initialized, no
resolve framebuffer (member defaults are in the header, matching the
spec's "created uninitialized" lifecycle and "0/absent ⇒ implicit" id). -/
def CustomFramebuffer.new : CustomFramebuffer :=
  .mk ⟨0, FramebufferDesc.empty, false, RenderPassDesc.default⟩ none

/-- `CustomFramebuffer::getColorAttachmentIndices` (`Framebuffer.cpp:264-272`). -/
def CustomFramebuffer.getColorAttachmentIndices (fb : CustomFramebuffer) : List Nat :=
  fb.core.renderTarget.colorAttachments.map (·.1)

/-- `CustomFramebuffer::getColorAttachment` (`Framebuffer.cpp:274-282`). -/
def CustomFramebuffer.getColorAttachment (fb : CustomFramebuffer) (index : Nat) :
    Option Nat :=
  match mapFind fb.core.renderTarget.colorAttachments index with
  | some att => att.texture
  | none => none

/-- `CustomFramebuffer::getResolveColorAttachment` (`Framebuffer.cpp:284-292`). -/
def CustomFramebuffer.getResolveColorAttachment (fb : CustomFramebuffer) (index : Nat) :
    Option Nat :=
  match mapFind fb.core.renderTarget.colorAttachments index with
  | some att => att.resolveTexture
  | none => none

/-- `CustomFramebuffer::getDepthAttachment` (`Framebuffer.cpp:294`). -/
def CustomFramebuffer.getDepthAttachment (fb : CustomFramebuffer) : Option Nat :=
  fb.core.renderTarget.depthAttachment.texture

/-- `CustomFramebuffer::getStencilAttachment` (`Framebuffer.cpp:302`). -/
def CustomFramebuffer.getStencilAttachment (fb : CustomFramebuffer) : Option Nat :=
  fb.core.renderTarget.stencilAttachment.texture

/-- `CustomFramebuffer::isInitialized` (`Framebuffer.cpp:328`). -/
def CustomFramebuffer.isInitialized (fb : CustomFramebuffer) : Bool :=
  fb.core.initialized

/-- `Framebuffer::bindBuffer` (`Framebuffer.cpp:114-116`). -/
def bindBufferEv (fbId : Nat) : List Ev :=
  [Ev.bindFramebuffer GL_FRAMEBUFFER fbId]

/-- `Framebuffer::bindBufferForRead` (`Framebuffer.cpp:118-125`). -/
def bindBufferForReadEv (ctx : Ctx) (fbId : Nat) : List Ev :=
  if ctx.readWriteFramebuffer then [Ev.bindFramebuffer GL_READ_FRAMEBUFFER fbId]
  else bindBufferEv fbId

/-- `CustomFramebuffer::attachAsColor` (`Framebuffer.cpp:554-574`):
dispatches on the framebuffer mode; in `Mono` mode defers to the
texture's own attach, in `Stereo` mode issues a multiview attach (the
multisample variant when the texture has more than one sample);
`Multiview` mode asserts. -/
def attachAsColorEv (ctx : Ctx) (mode : FramebufferMode) (tex index face mipmapLevel : Nat) :
    List Ev :=
  match mode with
  | FramebufferMode.Mono => [Ev.texAttachAsColor tex index face mipmapLevel]
  | FramebufferMode.Stereo =>
      if (ctx.heap tex).samples > 1 then
        [Ev.fbTexMultisampleMultiview GL_DRAW_FRAMEBUFFER GL_COLOR_ATTACHMENT0 tex 0
          (ctx.heap tex).samples 0 2]
      else
        [Ev.fbTexMultiview GL_DRAW_FRAMEBUFFER (GL_COLOR_ATTACHMENT0 + index) tex 0 0 2]
  | FramebufferMode.Multiview => [Ev.assertFail]

/-- `CustomFramebuffer::attachAsDepth` (`Framebuffer.cpp:576-592`). -/
def attachAsDepthEv (ctx : Ctx) (mode : FramebufferMode) (tex : Nat) : List Ev :=
  match mode with
  | FramebufferMode.Mono => [Ev.texAttachAsDepth tex]
  | FramebufferMode.Stereo =>
      if (ctx.heap tex).samples > 1 then
        [Ev.fbTexMultisampleMultiview GL_DRAW_FRAMEBUFFER GL_DEPTH_ATTACHMENT tex 0
          (ctx.heap tex).samples 0 2]
      else
        [Ev.fbTexMultiview GL_DRAW_FRAMEBUFFER GL_DEPTH_ATTACHMENT tex 0 0 2]
  | FramebufferMode.Multiview => [Ev.assertFail]

/-- `CustomFramebuffer::attachAsStencil` (`Framebuffer.cpp:594-610`). -/
def attachAsStencilEv (ctx : Ctx) (mode : FramebufferMode) (tex : Nat) : List Ev :=
  match mode with
  | FramebufferMode.Mono => [Ev.texAttachAsStencil tex]
  | FramebufferMode.Stereo =>
      if (ctx.heap tex).samples > 1 then
        [Ev.fbTexMultisampleMultiview GL_DRAW_FRAMEBUFFER GL_STENCIL_ATTACHMENT tex 0
          (ctx.heap tex).samples 0 2]
      else
        [Ev.fbTexMultiview GL_DRAW_FRAMEBUFFER GL_STENCIL_ATTACHMENT tex 0 0 2]
  | FramebufferMode.Multiview => [Ev.assertFail]

/-- `CustomFramebuffer::hasImplicitColorAttachment` (`Framebuffer.cpp:332-342`). -/
def CustomFramebuffer.hasImplicitColorAttachment (ctx : Ctx) (fb : CustomFramebuffer) :
    Bool :=
  if fb.core.frameBufferID ≠ 0 then false
  else
    match mapFind fb.core.renderTarget.colorAttachments 0 with
    | some att =>
        match att.texture with
        | some t => (ctx.heap t).implicitStorage
        | none => false
    | none => false

/-- `CustomFramebuffer::updateDrawable` (`Framebuffer.cpp:306-326`):
detaches attachment 0 when updating to null while one is attached;
attaches (under a binding guard) when updating to a texture that is not
reference-identical to the current attachment 0; returns the argument. -/
def CustomFramebuffer.updateDrawable (ctx : Ctx) (fb : CustomFramebuffer)
    (texture : Option Nat) : CustomFramebuffer × List Ev :=
  let colorAttachment0 := fb.getColorAttachment 0
  let (fb1, ev1) :=
    match texture, colorAttachment0 with
    | none, some cur =>
        (fb.withCore { fb.core with
            renderTarget := { fb.core.renderTarget with
              colorAttachments := mapErase fb.core.renderTarget.colorAttachments 0 } },
         bindBufferEv fb.core.frameBufferID ++ [Ev.texDetachAsColor cur 0])
    | _, _ => (fb, [])
  match texture with
  | some t =>
      if fb1.getColorAttachment 0 ≠ some t then
        let (g, gEv) := mkGuard ctx
        (fb1.withCore { fb1.core with
            renderTarget := { fb1.core.renderTarget with
              colorAttachments := mapSetTexture0 fb1.core.renderTarget.colorAttachments (some t) } },
         ev1 ++ gEv ++ bindBufferEv fb1.core.frameBufferID ++
           attachAsColorEv ctx fb1.core.renderTarget.mode t 0 0 0 ++ guardRestore ctx g)
      else (fb1, ev1)
  | none => (fb1, ev1)

/-- Does the descriptor hold a non-null color attachment at index 0?
(`renderTarget_.colorAttachments.find(0)` followed by the null check, as
done in `bind` at `Framebuffer.cpp:492-495` and `unbind` at
`Framebuffer.cpp:527-530`.) -/
def attachment0Present (rt : FramebufferDesc) : Bool :=
  match mapFind rt.colorAttachments 0 with
  | some att => att.texture.isSome
  | none => false

/-- The per-color-attachment loop of `CustomFramebuffer::bind`
(`Framebuffer.cpp:465-489`): for each non-null color attachment, toggles
the sRGB framebuffer state (non-ES builds with the SRGB capability) and
re-attaches cube textures at the face/level named by the pass config. -/
def bindColorLoop (ctx : Ctx) (mode : FramebufferMode) (renderPass : RenderPassDesc) :
    List (Nat × AttachmentDesc) → List Ev
  | [] => []
  | (i, att) :: rest =>
      (match att.texture with
       | none => []
       | some t =>
           (if ¬ctx.openglES ∧ ctx.srgbCap then
             (if (ctx.heap t).srgb then [Ev.enable GL_FRAMEBUFFER_SRGB]
              else [Ev.disable GL_FRAMEBUFFER_SRGB])
            else []) ++
           (if (ctx.heap t).texType = TextureType.Cube then
             attachAsColorEv ctx mode t i (renderPass.colorAttachments i).layer
               (renderPass.colorAttachments i).mipmapLevel
            else [])) ++
      bindColorLoop ctx mode renderPass rest

/-- `CustomFramebuffer::bind` (`Framebuffer.cpp:459-521`): caches the pass
config, binds the framebuffer, runs the per-attachment loop, then builds
the combined clear mask from `loadAction == Clear` on present attachments
(color index 0 only, depth, stencil), applying each clear value and write
mask, enables stencil testing whenever a stencil attachment exists, and
issues a single combined clear iff the mask is non-zero. -/
def CustomFramebuffer.bind (ctx : Ctx) (fb : CustomFramebuffer)
    (renderPass : RenderPassDesc) : CustomFramebuffer × List Ev :=
  let fb' := fb.withCore { fb.core with renderPass := renderPass }
  let rt := fb.core.renderTarget
  let loopEv := bindColorLoop ctx rt.mode renderPass rt.colorAttachments
  let clearMask : Nat :=
    (if attachment0Present rt ∧
        (renderPass.colorAttachments 0).loadAction = LoadAction.Clear then
      GL_COLOR_BUFFER_BIT else 0) |||
    (if rt.depthAttachment.texture.isSome ∧
        renderPass.depthAttachment.loadAction = LoadAction.Clear then
      GL_DEPTH_BUFFER_BIT else 0) |||
    (if rt.stencilAttachment.texture.isSome ∧
        renderPass.stencilAttachment.loadAction = LoadAction.Clear then
      GL_STENCIL_BUFFER_BIT else 0)
  let colorEv :=
    if attachment0Present rt ∧
        (renderPass.colorAttachments 0).loadAction = LoadAction.Clear then
      [Ev.colorMask true true true true,
       Ev.clearColor (renderPass.colorAttachments 0).clearColor]
    else []
  let depthEv :=
    if rt.depthAttachment.texture.isSome ∧
        renderPass.depthAttachment.loadAction = LoadAction.Clear then
      [Ev.depthMask true, Ev.clearDepthf renderPass.depthAttachment.clearDepth]
    else []
  let stencilEv :=
    (if rt.stencilAttachment.texture.isSome then [Ev.enable GL_STENCIL_TEST] else []) ++
    (if rt.stencilAttachment.texture.isSome ∧
        renderPass.stencilAttachment.loadAction = LoadAction.Clear then
      [Ev.stencilMask 0xFF, Ev.clearStencil renderPass.stencilAttachment.clearStencil]
     else [])
  let clearEv := if clearMask ≠ 0 then [Ev.clearCall clearMask] else []
  (fb', bindBufferEv fb.core.frameBufferID ++ loopEv ++ colorEv ++ depthEv ++
    stencilEv ++ clearEv)

/-- `CustomFramebuffer::unbind` (`Framebuffer.cpp:523-552`): collects the
present attachments among color 0, depth and stencil whose cached
storeAction is not `Store`, disables stencil testing when a stencil
attachment exists, and issues one invalidate call for the collected list
iff it is non-empty and the invalidation capability is present. -/
def CustomFramebuffer.unbind (ctx : Ctx) (fb : CustomFramebuffer) : List Ev :=
  let rt := fb.core.renderTarget
  let rp := fb.core.renderPass
  let attachments : List Nat :=
    (if attachment0Present rt ∧ (rp.colorAttachments 0).storeAction ≠ StoreAction.Store then
      [GL_COLOR_ATTACHMENT0] else []) ++
    (if rt.depthAttachment.texture.isSome ∧
        rp.depthAttachment.storeAction ≠ StoreAction.Store then
      [GL_DEPTH_ATTACHMENT] else []) ++
    (if rt.stencilAttachment.texture.isSome ∧
        rp.stencilAttachment.storeAction ≠ StoreAction.Store then
      [GL_STENCIL_ATTACHMENT] else [])
  (if rt.stencilAttachment.texture.isSome then [Ev.disable GL_STENCIL_TEST] else []) ++
  (if attachments.length > 0 ∧ ctx.invalidateCap then
    [Ev.invalidateFramebuffer GL_FRAMEBUFFER attachments]
   else [])

/-- `igl::TextureRangeDesc` as read by the copy operations. -/
structure TextureRangeDesc where
  x : Nat
  y : Nat
  width : Nat
  height : Nat
  layer : Nat
  mipLevel : Nat
  deriving DecidableEq, Repr

/-- `Framebuffer::attachAsColorLayer` (`Framebuffer.cpp:243-252`). -/
def attachAsColorLayerEv (texture : Option Nat) (layer : Nat) : List Ev :=
  match texture with
  | some t => [Ev.framebufferTextureLayer GL_READ_FRAMEBUFFER GL_COLOR_ATTACHMENT0 t 0 layer]
  | none => [Ev.framebufferTextureLayer GL_READ_FRAMEBUFFER GL_COLOR_ATTACHMENT0 0 0 0]

/-- `Framebuffer::copyBytesColorAttachment` (`Framebuffer.cpp:127-200`),
on the explicit target: index 0 only (asserts otherwise); under a binding
guard, routes layered textures through a scratch read framebuffer;
chooses the `GL_RGBA_INTEGER`/`GL_UNSIGNED_INT` transfer only for
`RGBA_UInt32` with the integer-texture capability; with `RGBA_UInt32` and
no capability it asserts and performs no transfer; for every other
format it uses the `GL_RGBA`/`GL_UNSIGNED_BYTE` transfer.
`idSupply` supplies the id `genFramebuffers` hands out for the scratch
framebuffer. -/
def CustomFramebuffer.copyBytesColorAttachment (ctx : Ctx) (idSupply : Nat)
    (fb : CustomFramebuffer) (index : Nat) (range : TextureRangeDesc)
    (_bytesPerRow : Nat) : List Ev :=
  if index ≠ 0 then [Ev.assertFail]
  else
    match fb.getColorAttachment index with
    | none => [Ev.assertFail]
    | some t =>
        let (g, gEv) := mkGuard ctx
        let extraId := idSupply
        let layered := (ctx.heap t).numLayers > 1
        let setupEv :=
          if layered then
            [Ev.genFramebuffers extraId, Ev.bindFramebuffer GL_READ_FRAMEBUFFER extraId] ++
              attachAsColorLayerEv (some t) range.layer ++ [Ev.checkFramebufferStatus]
          else bindBufferForReadEv ctx fb.core.frameBufferID
        let readEv :=
          if (ctx.heap t).format = TextureFormat.RGBA_UInt32 then
            if ctx.textureIntegerCap then
              [Ev.readPixels range.x range.y range.width range.height
                GL_RGBA_INTEGER GL_UNSIGNED_INT]
            else [Ev.assertFail]
          else
            [Ev.readPixels range.x range.y range.width range.height
              GL_RGBA GL_UNSIGNED_BYTE]
        let teardownEv :=
          if layered then
            attachAsColorLayerEv none 0 ++ [Ev.checkFramebufferStatus] ++
              (if extraId > 0 then [Ev.deleteFramebuffers extraId] else [])
          else []
        gEv ++ setupEv ++
          [Ev.pixelStorei GL_PACK_ALIGNMENT (ctx.heap t).alignmentVal, Ev.flush] ++
          readEv ++ teardownEv ++ guardRestore ctx g

/-- `igl::opengl::CurrentFramebuffer` (the implicit target variant): the
snapshotted ambient framebuffer id and the synthesized placeholder color
attachment (a `DummyTexture` handle). -/
structure CurrentFramebuffer where
  frameBufferID : Nat
  colorAttachment : Nat
  deriving DecidableEq, Repr

/-- `CurrentFramebuffer::bind` (`Framebuffer.cpp:668-704`): binds the
snapshotted framebuffer, toggles sRGB (non-ES), then clears each of
color, depth and stencil whenever the pass's loadAction is NOT `Load`
("clear the buffers if we're not loading previous contents"), issuing a
single combined clear iff the mask is non-zero. -/
def CurrentFramebuffer.bind (ctx : Ctx) (cur : CurrentFramebuffer)
    (renderPass : RenderPassDesc) : List Ev :=
  let srgbEv :=
    if ¬ctx.openglES then
      -- getResolveColorAttachment(0) returns the placeholder attachment,
      -- which is never null (Framebuffer.cpp:639-644)
      if ctx.srgbCap then
        (if (ctx.heap cur.colorAttachment).srgb then [Ev.enable GL_FRAMEBUFFER_SRGB]
         else [Ev.disable GL_FRAMEBUFFER_SRGB])
      else []
    else []
  let clearMask : Nat :=
    (if (renderPass.colorAttachments 0).loadAction ≠ LoadAction.Load then
      GL_COLOR_BUFFER_BIT else 0) |||
    (if renderPass.depthAttachment.loadAction ≠ LoadAction.Load then
      GL_DEPTH_BUFFER_BIT else 0) |||
    (if renderPass.stencilAttachment.loadAction ≠ LoadAction.Load then
      GL_STENCIL_BUFFER_BIT else 0)
  let colorEv :=
    if (renderPass.colorAttachments 0).loadAction ≠ LoadAction.Load then
      [Ev.colorMask true true true true,
       Ev.clearColor (renderPass.colorAttachments 0).clearColor]
    else []
  let depthEv :=
    if renderPass.depthAttachment.loadAction ≠ LoadAction.Load then
      [Ev.depthMask true, Ev.clearDepthf renderPass.depthAttachment.clearDepth]
    else []
  let stencilEv :=
    if renderPass.stencilAttachment.loadAction ≠ LoadAction.Load then
      [Ev.stencilMask 0xFF, Ev.clearStencil renderPass.stencilAttachment.clearStencil]
    else []
  let clearEv := if clearMask ≠ 0 then [Ev.clearCall clearMask] else []
  bindBufferEv cur.frameBufferID ++ srgbEv ++ colorEv ++ depthEv ++ stencilEv ++ clearEv

/-- `CurrentFramebuffer::unbind` (`Framebuffer.cpp:706-708`): a no-op. -/
def CurrentFramebuffer.unbind (_cur : CurrentFramebuffer) : List Ev := []

/-- The attach loop of `CustomFramebuffer::prepareResource`
(`Framebuffer.cpp:373-380`): attaches every non-null color attachment at
its index and records `GL_COLOR_ATTACHMENT0 + index` in the draw-buffer
list, in map iteration order. -/
def colorAttachLoop (ctx : Ctx) (mode : FramebufferMode) :
    List (Nat × AttachmentDesc) → List Ev × List Nat
  | [] => ([], [])
  | (i, att) :: rest =>
      let (evs, bufs) := colorAttachLoop ctx mode rest
      match att.texture with
      | some t => (attachAsColorEv ctx mode t i 0 0 ++ evs, (GL_COLOR_ATTACHMENT0 + i) :: bufs)
      | none => (evs, bufs)

/-- `CustomFramebuffer::prepareResource` (`Framebuffer.cpp:364-444`),
parameterized by the recursive `initialize` call used for the nested
resolve framebuffer: creates the native framebuffer, attaches all
present attachments, declares the sorted draw-buffer list when more than
one color attachment is present, validates completeness, enforces the
all-or-none resolve rule (`ArgumentInvalid` on violation), and
recursively initializes a nested resolve framebuffer when any resolve
texture is declared. -/
def prepareResourceAux
    (recur : Nat → CustomFramebuffer → FramebufferDesc →
      Option (Result × CustomFramebuffer × List Ev))
    (ctx : Ctx) (idSupply : Nat) (fb : CustomFramebuffer) :
    Option (Result × CustomFramebuffer × List Ev) :=
  let newId := idSupply
  let fb1 := fb.withCore { fb.core with frameBufferID := newId }
  let rt := fb1.core.renderTarget
  let (loopEv, drawBufs) := colorAttachLoop ctx rt.mode rt.colorAttachments
  let sortedBufs := drawBufs.insertionSort (· ≤ ·)
  let drawBufEv := if sortedBufs.length > 1 then [Ev.drawBuffersCall sortedBufs] else []
  let depthEv :=
    match rt.depthAttachment.texture with
    | some t => attachAsDepthEv ctx rt.mode t
    | none => []
  let stencilEv :=
    match rt.stencilAttachment.texture with
    | some t => attachAsStencilEv ctx rt.mode t
    | none => []
  let (statusR, statusEv) := checkFramebufferStatusR ctx
  let evs := [Ev.genFramebuffers newId] ++ bindBufferEv newId ++ loopEv ++ drawBufEv ++
    depthEv ++ stencilEv ++ statusEv
  if ¬statusR.isOk then some (statusR, fb1, evs)
  else
    let resolveColor : List (Nat × AttachmentDesc) :=
      rt.colorAttachments.filterMap
        (fun p => p.2.resolveTexture.map (fun rt' => (p.1, AttachmentDesc.mk (some rt') none)))
    let createRFColor : Bool := !resolveColor.isEmpty
    if createRFColor ∧ resolveColor.length ≠ rt.colorAttachments.length then
      some (⟨Code.ArgumentInvalid,
        "If resolve texture is specified on a color attachment it must be specified on all of them"⟩,
        fb1, evs)
    else
      let resolveDepth : AttachmentDesc :=
        match rt.depthAttachment.resolveTexture with
        | some rt' => ⟨some rt', none⟩
        | none => AttachmentDesc.empty
      let resolveStencil : AttachmentDesc :=
        match rt.stencilAttachment.resolveTexture with
        | some rt' => ⟨some rt', none⟩
        | none => AttachmentDesc.empty
      let createRF : Bool := createRFColor || rt.depthAttachment.resolveTexture.isSome ||
        rt.stencilAttachment.resolveTexture.isSome
      if createRF then
        let resolveDesc : FramebufferDesc :=
          ⟨resolveColor, resolveDepth, resolveStencil, FramebufferMode.Mono⟩
        match recur (idSupply + 1) CustomFramebuffer.new resolveDesc with
        | none => none
        | some (r2, cfb, ev2) =>
            some (r2, CustomFramebuffer.mk fb1.core (some cfb), evs ++ ev2)
      else some (statusR, fb1, evs)

/-- `CustomFramebuffer::initialize` (`Framebuffer.cpp:344-362`): fails if
already initialized; otherwise marks the object initialized, stores the
descriptor, and (under a binding guard) either skips native framebuffer
creation when attachment 0 is implicit-storage, or runs
`prepareResource`.  `fuel` bounds the recursion through the nested
resolve framebuffer (`none` = fuel exhausted; depth 2 always suffices
because a resolve descriptor declares no resolve textures of its own);
`idSupply` supplies the ids `genFramebuffers` hands out. -/
def initializeFB : Nat → Ctx → Nat → CustomFramebuffer → FramebufferDesc →
    Option (Result × CustomFramebuffer × List Ev)
  | 0, _, _, _, _ => none
  | fuel + 1, ctx, idSupply, fb, desc =>
      if fb.isInitialized then
        some (⟨Code.RuntimeError, "Framebuffer already initialized."⟩, fb, [])
      else
        let fb1 := fb.withCore { fb.core with initialized := true, renderTarget := desc }
        let (g, gEv) := mkGuard ctx
        if fb1.hasImplicitColorAttachment ctx then
          some (Result.ok, fb1, gEv ++ guardRestore ctx g)
        else
          match prepareResourceAux (fun i f d => initializeFB fuel ctx i f d)
              ctx idSupply fb1 with
          | none => none
          | some (r, fb2, ev) => some (r, fb2, gEv ++ ev ++ guardRestore ctx g)

/-- `CustomFramebuffer::prepareResource` at a given recursion fuel. -/
def prepareResource (fuel : Nat) (ctx : Ctx) (idSupply : Nat) (fb : CustomFramebuffer) :
    Option (Result × CustomFramebuffer × List Ev) :=
  prepareResourceAux (fun i f d => initializeFB fuel ctx i f d) ctx idSupply fb

/-! ### Trace observables -/

/-- Is this event a combined-clear driver call (`glClear`)? -/
def isClearEv : Ev → Bool
  | Ev.clearCall _ => true
  | _ => false

/-- Is this event a framebuffer-rebind driver call (`glBindFramebuffer`)? -/
def isBindFramebufferEv : Ev → Bool
  | Ev.bindFramebuffer _ _ => true
  | _ => false

/-- Is this event a framebuffer-invalidate driver call? -/
def isInvalidateEv : Ev → Bool
  | Ev.invalidateFramebuffer _ _ => true
  | _ => false

/-- Is this event a pixel-transfer driver call (`glReadPixels`)? -/
def isReadPixelsEv : Ev → Bool
  | Ev.readPixels _ _ _ _ _ _ => true
  | _ => false

/-- Is this event a draw-buffer declaration (`glDrawBuffers`)? -/
def isDrawBuffersEv : Ev → Bool
  | Ev.drawBuffersCall _ => true
  | _ => false

/-- Is this event an attach or detach of a resource to a target? -/
def isAttachOrDetachEv : Ev → Bool
  | Ev.texAttachAsColor _ _ _ _ => true
  | Ev.texDetachAsColor _ _ => true
  | Ev.texAttachAsDepth _ => true
  | Ev.texAttachAsStencil _ => true
  | Ev.fbTexMultisampleMultiview _ _ _ _ _ _ _ => true
  | Ev.fbTexMultiview _ _ _ _ _ _ => true
  | Ev.framebufferTextureLayer _ _ _ _ _ => true
  | _ => false

/-- Does the descriptor's attachment 0 carry an implicit-storage texture?
(The descriptor-only part of `hasImplicitColorAttachment`.) -/
def descHasImplicitColor0 (ctx : Ctx) (desc : FramebufferDesc) : Bool :=
  match mapFind desc.colorAttachments 0 with
  | some att =>
      match att.texture with
      | some t => (ctx.heap t).implicitStorage
      | none => false
  | none => false

/-! ### Concrete fixtures for witnesses and counterexamples -/

/-- A plain 2D RGBA8 texture. -/
def texPlain : TextureInfo :=
  ⟨TextureFormat.RGBA_UNorm8, TextureType.TwoD, 1, 1, false, false, 4, 4, 4⟩

/-- A 2D RGBA 32-bit-unsigned-integer texture. -/
def texUInt32 : TextureInfo :=
  ⟨TextureFormat.RGBA_UInt32, TextureType.TwoD, 1, 1, false, false, 4, 4, 16⟩

/-- A context whose driver reports a complete framebuffer and whose
textures are all plain RGBA8; no integer-texture support. -/
def ctxOkPlain : Ctx :=
  ⟨false, false, true, false, true, FbStatus.complete, 3, 7, 8, 9, fun _ => texPlain⟩

/-- Like `ctxOkPlain` but the ambient framebuffer is incomplete. -/
def ctxIncomplete : Ctx :=
  ⟨false, false, true, false, true, FbStatus.incompleteAttachment, 3, 7, 8, 9,
   fun _ => texPlain⟩

/-- A context whose textures are RGBA_UInt32 but whose driver lacks the
integer-texture capability. -/
def ctxUIntNoInteger : Ctx :=
  ⟨false, false, true, false, true, FbStatus.complete, 3, 7, 8, 9, fun _ => texUInt32⟩

/-- Descriptor with a single color attachment at index 0. -/
def descColor0 : FramebufferDesc :=
  ⟨[(0, ⟨some 1, none⟩)], AttachmentDesc.empty, AttachmentDesc.empty, FramebufferMode.Mono⟩

/-- Descriptor with color attachments at indices 0 and 2 only. -/
def descSparse02 : FramebufferDesc :=
  ⟨[(0, ⟨some 1, none⟩), (2, ⟨some 2, none⟩)], AttachmentDesc.empty, AttachmentDesc.empty,
   FramebufferMode.Mono⟩

/-- Descriptor with color 0, depth and stencil attachments. -/
def descFull : FramebufferDesc :=
  ⟨[(0, ⟨some 1, none⟩)], ⟨some 2, none⟩, ⟨some 3, none⟩, FramebufferMode.Mono⟩

/-- Descriptor declaring a resolve texture on color 0 but not on color 1. -/
def descPartialResolve : FramebufferDesc :=
  ⟨[(0, ⟨some 1, some 10⟩), (1, ⟨some 2, none⟩)], AttachmentDesc.empty, AttachmentDesc.empty,
   FramebufferMode.Mono⟩

/-- An already-initialized framebuffer over `descFull`. -/
def fbReady : CustomFramebuffer :=
  CustomFramebuffer.mk ⟨9, descFull, true, RenderPassDesc.default⟩ none

/-- A pass config with a uniform load action and store action on color,
depth and stencil, and distinct clear-value tokens. -/
def passUniform (l : LoadAction) (s : StoreAction) : RenderPassDesc :=
  ⟨fun _ => ⟨l, s, 42, 0, 0⟩, ⟨l, s, 17⟩, ⟨l, s, 5⟩⟩

/-- A context identical to `ctxOkPlain` but lacking the
framebuffer-invalidation capability. -/
def ctxNoInvalidate : Ctx :=
  ⟨false, false, false, false, true, FbStatus.complete, 3, 7, 8, 9, fun _ => texPlain⟩

/-- A pass config storing color but discarding depth and stencil. -/
def passC6 : RenderPassDesc :=
  ⟨fun _ => ⟨LoadAction.Load, StoreAction.Store, 42, 0, 0⟩,
   ⟨LoadAction.Load, StoreAction.DontCare, 17⟩,
   ⟨LoadAction.Load, StoreAction.DontCare, 5⟩⟩

/-- A framebuffer over `descFull` whose cached pass config is `passC6`. -/
def fbC6 : CustomFramebuffer :=
  CustomFramebuffer.mk ⟨9, descFull, true, passC6⟩ none

/-- A framebuffer over `descColor0` (texture handle 1 at color index 0). -/
def fbC9 : CustomFramebuffer :=
  CustomFramebuffer.mk ⟨9, descColor0, true, RenderPassDesc.default⟩ none

/-- A context whose textures are RGBA_UInt32 and whose driver has the
integer-texture capability. -/
def ctxUIntInteger : Ctx :=
  ⟨false, false, true, true, true, FbStatus.complete, 3, 7, 8, 9, fun _ => texUInt32⟩

/-- The driver-call trace of `prepareResource` up to (and including) the
completeness check — common to the success and completeness-failure
paths. -/
def prepEvs (ctx : Ctx) (idSupply : Nat) (fb : CustomFramebuffer) : List Ev :=
  [Ev.genFramebuffers idSupply] ++ bindBufferEv idSupply ++
  (colorAttachLoop ctx fb.core.renderTarget.mode fb.core.renderTarget.colorAttachments).1 ++
  (if ((colorAttachLoop ctx fb.core.renderTarget.mode
        fb.core.renderTarget.colorAttachments).2.insertionSort (· ≤ ·)).length > 1 then
    [Ev.drawBuffersCall ((colorAttachLoop ctx fb.core.renderTarget.mode
        fb.core.renderTarget.colorAttachments).2.insertionSort (· ≤ ·))]
   else []) ++
  (match fb.core.renderTarget.depthAttachment.texture with
   | some t => attachAsDepthEv ctx fb.core.renderTarget.mode t
   | none => []) ++
  (match fb.core.renderTarget.stencilAttachment.texture with
   | some t => attachAsStencilEv ctx fb.core.renderTarget.mode t
   | none => []) ++
  [Ev.checkFramebufferStatus]

/-- Helper: the resolve-descriptor color map built by `prepareResource`. -/
def resolveColorOf (l : List (Nat × AttachmentDesc)) : List (Nat × AttachmentDesc) :=
  l.filterMap
    (fun p => p.2.resolveTexture.map (fun rt' => (p.1, AttachmentDesc.mk (some rt') none)))

/-! ### Helper lemmas -/

/-- A second `initialize` call returns the `RuntimeError` result
"Framebuffer already initialized." and changes nothing
(`Framebuffer.cpp:345-348`). -/
theorem initializeFB_already_initialized (fuel idSupply : Nat) (ctx : Ctx)
    (fb : CustomFramebuffer) (desc : FramebufferDesc) (h : fb.isInitialized = true) :
    initializeFB (fuel + 1) ctx idSupply fb desc =
      some (⟨Code.RuntimeError, "Framebuffer already initialized."⟩, fb, []) := by
  simp [initializeFB, h]

/-- Helper: the guard constructed over a non-complete ambient framebuffer
keeps all three framebuffer fields at their zero sentinel. -/
theorem mkGuard_incomplete (ctx : Ctx) (h : ctx.fbStatus ≠ FbStatus.complete) :
    (mkGuard ctx).1 = ⟨ctx.renderbufferBinding, 0, 0, 0⟩ := by
  have hst : (checkFramebufferStatusR ctx).1.isOk = false := by
    cases hh : ctx.fbStatus <;>
      simp_all [checkFramebufferStatusR, Result.isOk]
  simp [mkGuard, hst]

/-! ### Claim C2 -/

/-- C2 counterexample: a second `initialize` on an already-initialized
framebuffer returns the code `RuntimeError` — the same code used for
completeness failures — not a dedicated `AlreadyInitialized` code. -/
theorem C2_counterexample :
    ((initializeFB 2 ctxOkPlain 1 CustomFramebuffer.new descColor0).bind
        (fun x => initializeFB 2 ctxOkPlain 5 x.2.1 descColor0)).map (fun x => x.1.code)
      = some Code.RuntimeError ∧
    Code.RuntimeError ≠ Code.AlreadyInitialized := by
  constructor
  · decide
  · decide

/-- C2 (amended): for every Render Target Object on which initialize has
already been called, a second call to initialize fails with the code
`RuntimeError` and the message "Framebuffer already initialized."
(distinguished only by its message, not by a dedicated code) and leaves
the object's state — framebuffer identifier, descriptor, everything —
unchanged, issuing no driver call. -/
theorem C2_second_initialize_fails_state_unchanged (fuel idSupply : Nat) (ctx : Ctx)
    (fb : CustomFramebuffer) (desc : FramebufferDesc) (h : fb.isInitialized = true) :
    initializeFB (fuel + 1) ctx idSupply fb desc =
      some (⟨Code.RuntimeError, "Framebuffer already initialized."⟩, fb, []) :=
  initializeFB_already_initialized fuel idSupply ctx fb desc h

/-- C2 witness: the amended theorem applied to a concrete initialized
framebuffer. -/
theorem C2_witness :
    fbReady.isInitialized = true ∧
    initializeFB 1 ctxOkPlain 5 fbReady descColor0 =
      some (⟨Code.RuntimeError, "Framebuffer already initialized."⟩, fbReady, []) :=
  ⟨rfl, C2_second_initialize_fails_state_unchanged 0 5 ctxOkPlain fbReady descColor0 rfl⟩

/-! ### Claim C3 -/

/-- C3 counterexample: a Binding Scope Guard constructed while the ambient
framebuffer is incomplete still performs a framebuffer-rebind call at
destruction (it rebinds framebuffer 0), so the rebind call count is not
zero. -/
theorem C3_counterexample :
    guardRestore ctxIncomplete (mkGuard ctxIncomplete).1 =
      [Ev.bindFramebuffer GL_FRAMEBUFFER 0, Ev.bindRenderbuffer GL_RENDERBUFFER 3] ∧
    (guardRestore ctxIncomplete (mkGuard ctxIncomplete).1).countP isBindFramebufferEv ≠ 0 := by
  exact ⟨rfl, by decide⟩

/-- C3 (amended): destruction of a Binding Scope Guard performs its
framebuffer-rebind calls unconditionally (two with separate read/draw
binding points, one otherwise); but when the guard was constructed while
the ambient framebuffer was incomplete, every such rebind binds
framebuffer 0 — the zero-initialized sentinel — so the guard never
reinstates the broken ambient framebuffer binding. -/
theorem C3_guard_incomplete_restores_sentinel (ctx : Ctx)
    (h : ctx.fbStatus ≠ FbStatus.complete) :
    (mkGuard ctx).1.currentFramebuffer = 0 ∧
    (mkGuard ctx).1.currentReadFramebuffer = 0 ∧
    (mkGuard ctx).1.currentDrawFramebuffer = 0 ∧
    (∀ tgt fbid, Ev.bindFramebuffer tgt fbid ∈ guardRestore ctx (mkGuard ctx).1 →
      fbid = 0) ∧
    (guardRestore ctx (mkGuard ctx).1).countP isBindFramebufferEv =
      (if ctx.readWriteFramebuffer then 2 else 1) := by
  rw [mkGuard_incomplete ctx h]
  refine ⟨rfl, rfl, rfl, ?_, ?_⟩ <;>
    cases hrw : ctx.readWriteFramebuffer <;>
      (simp [guardRestore, isBindFramebufferEv, List.countP_cons, hrw] <;> tauto)

/-- C3 witness: the amended theorem applied to a concrete context with an
incomplete ambient framebuffer. -/
theorem C3_witness :
    (mkGuard ctxIncomplete).1.currentFramebuffer = 0 ∧
    (mkGuard ctxIncomplete).1.currentReadFramebuffer = 0 ∧
    (mkGuard ctxIncomplete).1.currentDrawFramebuffer = 0 ∧
    (∀ tgt fbid,
      Ev.bindFramebuffer tgt fbid ∈ guardRestore ctxIncomplete (mkGuard ctxIncomplete).1 →
      fbid = 0) ∧
    (guardRestore ctxIncomplete (mkGuard ctxIncomplete).1).countP isBindFramebufferEv =
      (if ctxIncomplete.readWriteFramebuffer then 2 else 1) :=
  C3_guard_incomplete_restores_sentinel ctxIncomplete (by decide)

/-! ### Claim C5 -/

/-- Helper: the clear calls `CurrentFramebuffer::bind` issues, computed:
a single combined clear whose mask has a bit per attachment with
`loadAction ≠ Load`, and no clear when all three load actions are `Load`. -/
theorem filter_isClearEv_current_bind (ctx : Ctx) (cur : CurrentFramebuffer)
    (pass : RenderPassDesc) :
    (CurrentFramebuffer.bind ctx cur pass).filter isClearEv =
      (if ((if (pass.colorAttachments 0).loadAction ≠ LoadAction.Load then
              GL_COLOR_BUFFER_BIT else 0) |||
           (if pass.depthAttachment.loadAction ≠ LoadAction.Load then
              GL_DEPTH_BUFFER_BIT else 0) |||
           (if pass.stencilAttachment.loadAction ≠ LoadAction.Load then
              GL_STENCIL_BUFFER_BIT else 0)) ≠ 0 then
        [Ev.clearCall
          ((if (pass.colorAttachments 0).loadAction ≠ LoadAction.Load then
              GL_COLOR_BUFFER_BIT else 0) |||
           (if pass.depthAttachment.loadAction ≠ LoadAction.Load then
              GL_DEPTH_BUFFER_BIT else 0) |||
           (if pass.stencilAttachment.loadAction ≠ LoadAction.Load then
              GL_STENCIL_BUFFER_BIT else 0))]
       else []) := by
  simp only [CurrentFramebuffer.bind, bindBufferEv]
  split_ifs <;> simp_all [isClearEv]

/-- C5 counterexample: on the Implicit Target Variant, a pass config with
loadAction `DontCare` on color, depth and stencil — for which the claim
says no clear is issued — makes `bind` issue one combined clear. -/
theorem C5_counterexample :
    (CurrentFramebuffer.bind ctxOkPlain ⟨7, 100⟩
        (passUniform LoadAction.DontCare StoreAction.Store)).countP isClearEv = 1 ∧
    (passUniform LoadAction.DontCare StoreAction.Store).depthAttachment.loadAction ≠
      LoadAction.Clear := by
  constructor
  · decide
  · decide

/-- C5 (amended): `bind` on the Implicit Target Variant clears each of
color, depth and stencil exactly when that attachment's loadAction is
NOT `Load` — `Clear` and `DontCare` both clear — as one combined clear
call; when all three load actions are `Load` no clear is issued; and
`unbind` on the Implicit Target Variant performs no operation. -/
theorem C5_current_bind_clears_unless_load (ctx : Ctx) (cur : CurrentFramebuffer)
    (pass : RenderPassDesc) :
    ((pass.colorAttachments 0).loadAction = LoadAction.Load ∧
     pass.depthAttachment.loadAction = LoadAction.Load ∧
     pass.stencilAttachment.loadAction = LoadAction.Load →
       (CurrentFramebuffer.bind ctx cur pass).filter isClearEv = []) ∧
    (((pass.colorAttachments 0).loadAction ≠ LoadAction.Load ∨
      pass.depthAttachment.loadAction ≠ LoadAction.Load ∨
      pass.stencilAttachment.loadAction ≠ LoadAction.Load) →
       ∃ m, (CurrentFramebuffer.bind ctx cur pass).filter isClearEv = [Ev.clearCall m] ∧
         (Nat.testBit m 14 ↔ (pass.colorAttachments 0).loadAction ≠ LoadAction.Load) ∧
         (Nat.testBit m 8 ↔ pass.depthAttachment.loadAction ≠ LoadAction.Load) ∧
         (Nat.testBit m 10 ↔ pass.stencilAttachment.loadAction ≠ LoadAction.Load)) ∧
    CurrentFramebuffer.unbind cur = [] := by
  refine ⟨fun hall => ?_, fun hany => ?_, rfl⟩
  · rw [filter_isClearEv_current_bind]
    simp [hall.1, hall.2.1, hall.2.2]
  · rw [filter_isClearEv_current_bind]
    by_cases hc : (pass.colorAttachments 0).loadAction = LoadAction.Load <;>
      by_cases hd : pass.depthAttachment.loadAction = LoadAction.Load <;>
        by_cases hs : pass.stencilAttachment.loadAction = LoadAction.Load <;>
          simp [hc, hd, hs, GL_COLOR_BUFFER_BIT, GL_DEPTH_BUFFER_BIT,
            GL_STENCIL_BUFFER_BIT] <;> tauto

/-- C5 witness: the amended theorem applied at a pass clearing only depth
(load `Clear`) with color and stencil `Load`, and at an all-`Load` pass. -/
theorem C5_witness :
    (∃ m,
      (CurrentFramebuffer.bind ctxOkPlain ⟨7, 100⟩
          ⟨fun _ => ⟨LoadAction.Load, StoreAction.Store, 42, 0, 0⟩,
           ⟨LoadAction.Clear, StoreAction.Store, 17⟩,
           ⟨LoadAction.Load, StoreAction.Store, 5⟩⟩).filter isClearEv = [Ev.clearCall m] ∧
      (Nat.testBit m 14 ↔
        ((⟨fun _ => ⟨LoadAction.Load, StoreAction.Store, 42, 0, 0⟩,
           ⟨LoadAction.Clear, StoreAction.Store, 17⟩,
           ⟨LoadAction.Load, StoreAction.Store, 5⟩⟩ : RenderPassDesc).colorAttachments 0).loadAction
          ≠ LoadAction.Load) ∧
      (Nat.testBit m 8 ↔ (LoadAction.Clear ≠ LoadAction.Load)) ∧
      (Nat.testBit m 10 ↔ (LoadAction.Load ≠ LoadAction.Load))) ∧
    (CurrentFramebuffer.bind ctxOkPlain ⟨7, 100⟩
        (passUniform LoadAction.Load StoreAction.Store)).filter isClearEv = [] :=
  ⟨(C5_current_bind_clears_unless_load ctxOkPlain ⟨7, 100⟩ _).2.1
      (Or.inr (Or.inl (by decide))),
   (C5_current_bind_clears_unless_load ctxOkPlain ⟨7, 100⟩ _).1 ⟨rfl, rfl, rfl⟩⟩

/-! ### Claim C6 -/

/-- C6: on an explicit target with depth and stencil attachments present,
a cached pass config with storeAction `DontCare` on depth and stencil
and `Store` on color 0 makes `unbind` issue exactly one invalidate call
listing depth and stencil (and not color) when the invalidation
capability is present, and zero invalidate calls when it is absent. -/
theorem C6_unbind_invalidates_depth_stencil (ctx : Ctx) (fb : CustomFramebuffer)
    (hd : fb.core.renderTarget.depthAttachment.texture.isSome = true)
    (hs : fb.core.renderTarget.stencilAttachment.texture.isSome = true)
    (hds : fb.core.renderPass.depthAttachment.storeAction = StoreAction.DontCare)
    (hss : fb.core.renderPass.stencilAttachment.storeAction = StoreAction.DontCare)
    (hcs : (fb.core.renderPass.colorAttachments 0).storeAction = StoreAction.Store) :
    (ctx.invalidateCap = true →
      (CustomFramebuffer.unbind ctx fb).filter isInvalidateEv =
        [Ev.invalidateFramebuffer GL_FRAMEBUFFER
          [GL_DEPTH_ATTACHMENT, GL_STENCIL_ATTACHMENT]]) ∧
    (ctx.invalidateCap = false →
      (CustomFramebuffer.unbind ctx fb).filter isInvalidateEv = []) := by
  refine ⟨fun h => ?_, fun h => ?_⟩ <;>
    simp [CustomFramebuffer.unbind, hd, hs, hds, hss, hcs, h, isInvalidateEv,
      List.filter_append]

/-- C6 witness: the theorem applied to `fbC6` under a context with the
invalidation capability and one without it. -/
theorem C6_witness :
    (CustomFramebuffer.unbind ctxOkPlain fbC6).filter isInvalidateEv =
      [Ev.invalidateFramebuffer GL_FRAMEBUFFER
        [GL_DEPTH_ATTACHMENT, GL_STENCIL_ATTACHMENT]] ∧
    (CustomFramebuffer.unbind ctxNoInvalidate fbC6).filter isInvalidateEv = [] :=
  ⟨(C6_unbind_invalidates_depth_stencil ctxOkPlain fbC6 rfl rfl rfl rfl rfl).1 rfl,
   (C6_unbind_invalidates_depth_stencil ctxNoInvalidate fbC6 rfl rfl rfl rfl rfl).2 rfl⟩

/-! ### Claim C7 -/

theorem core_withCore (fb : CustomFramebuffer) (c : FBCore) : (fb.withCore c).core = c := by
  cases fb; rfl

theorem resolve_withCore (fb : CustomFramebuffer) (c : FBCore) :
    (fb.withCore c).resolveFramebuffer = fb.resolveFramebuffer := by
  cases fb; rfl

/-- Helper: rewriting the texture of the entry at key 0 in place. -/
theorem mapFind_map_set (t : Option Nat) (att : AttachmentDesc) :
    ∀ l : List (Nat × AttachmentDesc), mapFind l 0 = some att →
    mapFind (l.map (fun p => if p.1 = 0 then (0, { p.2 with texture := t }) else p)) 0 =
      some { att with texture := t }
  | [], h => by simp [mapFind] at h
  | (a, b) :: tl, h => by
      by_cases h0 : a = 0
      · subst h0
        simp [mapFind] at h ⊢
        simp [h]
      · have hbeq : ¬((fun q : Nat × AttachmentDesc => q.1 == 0) (a, b)) = true := by
          simpa using h0
        have h' : mapFind tl 0 = some att := by
          unfold mapFind at h
          rwa [List.find?_cons_of_neg (p := fun q => q.1 == 0) (a := (a, b)) tl hbeq] at h
        unfold mapFind
        rw [List.map_cons, if_neg h0,
          List.find?_cons_of_neg (p := fun q => q.1 == 0) (a := (a, b)) _ hbeq]
        exact mapFind_map_set t att tl h' 

/-- Helper: looking up key 0 after `colorAttachments[0].texture = t`
yields an attachment whose texture is `t`. -/
theorem mapFind_mapSetTexture0 (l : List (Nat × AttachmentDesc)) (t : Option Nat) :
    ∃ att, mapFind (mapSetTexture0 l t) 0 = some att ∧ att.texture = t := by
  unfold mapSetTexture0
  cases h : mapFind l 0 with
  | none =>
      refine ⟨⟨t, none⟩, ?_, rfl⟩
      simp [mapFind, AttachmentDesc.empty]
  | some att =>
      exact ⟨{ att with texture := t }, mapFind_map_set t att l h, rfl⟩

/-- Helper: index 0 is absent after `colorAttachments.erase(0)`. -/
theorem zero_not_mem_mapErase (l : List (Nat × AttachmentDesc)) :
    0 ∉ (mapErase l 0).map (·.1) := by
  simp only [mapErase, List.mem_map, List.mem_filter]
  rintro ⟨p, ⟨-, hne⟩, h0⟩
  simp_all

/-- C7: `updateDrawable(R)` (non-empty R) followed by
`getColorAttachment(0)` returns the reference-identical R;
`updateDrawable(empty)` after a prior non-empty attachment issues a
detach against the target and removes index 0 from
`getColorAttachmentIndices()`; and `updateDrawable(R)` with R already the
reference-identical attachment 0 performs no attach or detach side
effect. -/
theorem C7_updateDrawable_roundtrip (ctx : Ctx) (fb : CustomFramebuffer) (r t : Nat) :
    ((CustomFramebuffer.updateDrawable ctx fb (some r)).1.getColorAttachment 0 = some r) ∧
    (fb.getColorAttachment 0 = some t →
      Ev.texDetachAsColor t 0 ∈ (CustomFramebuffer.updateDrawable ctx fb none).2 ∧
      0 ∉ (CustomFramebuffer.updateDrawable ctx fb none).1.getColorAttachmentIndices) ∧
    (fb.getColorAttachment 0 = some r →
      (CustomFramebuffer.updateDrawable ctx fb (some r)).2.filter isAttachOrDetachEv = []) := by
  refine ⟨?_, fun h => ?_, fun h => ?_⟩
  · by_cases hne : fb.getColorAttachment 0 = some r
    · simp [CustomFramebuffer.updateDrawable, hne]
    · obtain ⟨att, hfind, htex⟩ :=
        mapFind_mapSetTexture0 fb.core.renderTarget.colorAttachments (some r)
      have hne' := hne
      simp only [CustomFramebuffer.getColorAttachment] at hne'
      simp [CustomFramebuffer.updateDrawable, hne', CustomFramebuffer.getColorAttachment,
        core_withCore, hfind, htex]
  · constructor
    · simp [CustomFramebuffer.updateDrawable, h]
    · simp only [CustomFramebuffer.updateDrawable, h, CustomFramebuffer.getColorAttachmentIndices,
        core_withCore]
      exact zero_not_mem_mapErase _
  · simp [CustomFramebuffer.updateDrawable, h]

/-- C7 witness: the three parts at concrete inputs — `fbReady` holds
texture 1 at index 0. -/
theorem C7_witness :
    ((CustomFramebuffer.updateDrawable ctxOkPlain fbReady (some 5)).1.getColorAttachment 0 =
      some 5) ∧
    (Ev.texDetachAsColor 1 0 ∈ (CustomFramebuffer.updateDrawable ctxOkPlain fbReady none).2 ∧
      0 ∉ (CustomFramebuffer.updateDrawable ctxOkPlain fbReady none).1.getColorAttachmentIndices) ∧
    ((CustomFramebuffer.updateDrawable ctxOkPlain fbReady (some 1)).2.filter
      isAttachOrDetachEv = []) :=
  ⟨(C7_updateDrawable_roundtrip ctxOkPlain fbReady 5 1).1,
   (C7_updateDrawable_roundtrip ctxOkPlain fbReady 5 1).2.1 rfl,
   (C7_updateDrawable_roundtrip ctxOkPlain fbReady 1 1).2.2 rfl⟩

/-! ### Claim C9 -/

/-- Helper: guard construction issues no pixel-transfer call. -/
theorem filter_read_mkGuard (ctx : Ctx) : (mkGuard ctx).2.filter isReadPixelsEv = [] := by
  unfold mkGuard checkFramebufferStatusR
  cases ctx.fbStatus <;> cases hrw : ctx.readWriteFramebuffer <;>
    simp [Result.isOk, isReadPixelsEv, hrw]

/-- Helper: guard destruction issues no pixel-transfer call. -/
theorem filter_read_guardRestore (ctx : Ctx) (g : FramebufferBindingGuard) :
    (guardRestore ctx g).filter isReadPixelsEv = [] := by
  unfold guardRestore
  split_ifs <;> simp [isReadPixelsEv]

/-- C9 counterexample: `copyBytesColorAttachment` at index 0 on an
`RGBA_UInt32` attachment without integer-texture support performs no
pixel transfer at all (the claim says every non-integer-path case uses
the 8-bit RGBA transfer). -/
theorem C9_counterexample :
    (CustomFramebuffer.copyBytesColorAttachment ctxUIntNoInteger 50 fbC9
        0 ⟨0, 0, 4, 4, 0, 0⟩ 0).countP isReadPixelsEv = 0 ∧
    (ctxUIntNoInteger.heap 1).format = TextureFormat.RGBA_UInt32 ∧
    ctxUIntNoInteger.textureIntegerCap = false := by
  refine ⟨?_, ?_, ?_⟩ <;> decide

/-- C9 (amended): for `copyBytesColorAttachment` at index 0 with a present
attachment, the integer (`GL_RGBA_INTEGER`/`GL_UNSIGNED_INT`) transfer is
used exactly when the attachment's format is `RGBA_UInt32` and the driver
reports integer-texture support; the 8-bit (`GL_RGBA`/`GL_UNSIGNED_BYTE`)
transfer is used exactly when the format is not `RGBA_UInt32`; and for
`RGBA_UInt32` without integer-texture support no pixel transfer is
performed (an assertion path). -/
theorem C9_copyBytes_transfer_paths (ctx : Ctx) (idSupply : Nat) (fb : CustomFramebuffer)
    (range : TextureRangeDesc) (bpr t : Nat)
    (h : fb.getColorAttachment 0 = some t) :
    ((ctx.heap t).format = TextureFormat.RGBA_UInt32 ∧ ctx.textureIntegerCap = true →
      (CustomFramebuffer.copyBytesColorAttachment ctx idSupply fb 0 range bpr).filter
          isReadPixelsEv =
        [Ev.readPixels range.x range.y range.width range.height
          GL_RGBA_INTEGER GL_UNSIGNED_INT]) ∧
    ((ctx.heap t).format ≠ TextureFormat.RGBA_UInt32 →
      (CustomFramebuffer.copyBytesColorAttachment ctx idSupply fb 0 range bpr).filter
          isReadPixelsEv =
        [Ev.readPixels range.x range.y range.width range.height
          GL_RGBA GL_UNSIGNED_BYTE]) ∧
    ((ctx.heap t).format = TextureFormat.RGBA_UInt32 ∧ ctx.textureIntegerCap = false →
      (CustomFramebuffer.copyBytesColorAttachment ctx idSupply fb 0 range bpr).filter
          isReadPixelsEv = []) := by
  refine ⟨fun hia => ?_, fun hf => ?_, fun hia => ?_⟩
  · obtain ⟨hf, hcap⟩ := hia
    by_cases hl : (ctx.heap t).numLayers > 1 <;>
      simp [CustomFramebuffer.copyBytesColorAttachment, h, hf, hcap, hl,
        filter_read_mkGuard, filter_read_guardRestore, List.filter_append,
        attachAsColorLayerEv, bindBufferForReadEv, bindBufferEv, isReadPixelsEv,
        apply_ite (List.filter isReadPixelsEv)]
  · by_cases hl : (ctx.heap t).numLayers > 1 <;>
      simp [CustomFramebuffer.copyBytesColorAttachment, h, hf, hl,
        filter_read_mkGuard, filter_read_guardRestore, List.filter_append,
        attachAsColorLayerEv, bindBufferForReadEv, bindBufferEv, isReadPixelsEv,
        apply_ite (List.filter isReadPixelsEv)]
  · obtain ⟨hf, hcap⟩ := hia
    by_cases hl : (ctx.heap t).numLayers > 1 <;>
      simp [CustomFramebuffer.copyBytesColorAttachment, h, hf, hcap, hl,
        filter_read_mkGuard, filter_read_guardRestore, List.filter_append,
        attachAsColorLayerEv, bindBufferForReadEv, bindBufferEv, isReadPixelsEv,
        apply_ite (List.filter isReadPixelsEv)]

/-- C9 witness: the three transfer paths at concrete inputs. -/
theorem C9_witness :
    (CustomFramebuffer.copyBytesColorAttachment ctxUIntInteger 50 fbC9
        0 ⟨0, 0, 4, 4, 0, 0⟩ 0).filter isReadPixelsEv =
      [Ev.readPixels 0 0 4 4 GL_RGBA_INTEGER GL_UNSIGNED_INT] ∧
    (CustomFramebuffer.copyBytesColorAttachment ctxOkPlain 50 fbC9
        0 ⟨0, 0, 4, 4, 0, 0⟩ 0).filter isReadPixelsEv =
      [Ev.readPixels 0 0 4 4 GL_RGBA GL_UNSIGNED_BYTE] ∧
    (CustomFramebuffer.copyBytesColorAttachment ctxUIntNoInteger 50 fbC9
        0 ⟨0, 0, 4, 4, 0, 0⟩ 0).filter isReadPixelsEv = [] :=
  ⟨(C9_copyBytes_transfer_paths ctxUIntInteger 50 fbC9 ⟨0, 0, 4, 4, 0, 0⟩ 0 1 rfl).1
      ⟨rfl, rfl⟩,
   (C9_copyBytes_transfer_paths ctxOkPlain 50 fbC9 ⟨0, 0, 4, 4, 0, 0⟩ 0 1 rfl).2.1
      (by decide),
   (C9_copyBytes_transfer_paths ctxUIntNoInteger 50 fbC9 ⟨0, 0, 4, 4, 0, 0⟩ 0 1 rfl).2.2
      ⟨rfl, rfl⟩⟩

/-! ### Claim C4 -/

/-- Helper: `attachAsColor` issues no clear call. -/
theorem filter_clear_attachAsColorEv (ctx : Ctx) (mode : FramebufferMode)
    (t i f m : Nat) : (attachAsColorEv ctx mode t i f m).filter isClearEv = [] := by
  cases mode
  · rfl
  · by_cases hsm : (ctx.heap t).samples > 1 <;> simp [attachAsColorEv, hsm, isClearEv]
  · rfl

/-- Helper: the per-attachment loop of `bind` issues no clear call. -/
theorem filter_clear_bindColorLoop (ctx : Ctx) (mode : FramebufferMode)
    (pass : RenderPassDesc) :
    ∀ l, (bindColorLoop ctx mode pass l).filter isClearEv = []
  | [] => rfl
  | (i, att) :: tl => by
      have ih := filter_clear_bindColorLoop ctx mode pass tl
      cases hat : att.texture with
      | none => simpa [bindColorLoop, hat] using ih
      | some t =>
          simp [bindColorLoop, hat, ih, List.filter_append,
            filter_clear_attachAsColorEv, apply_ite (List.filter isClearEv), isClearEv]

/-- C4: on an initialized explicit target, `bind` issues exactly one
combined clear call — as the last event of its trace — whose mask covers
precisely the attachments among color 0, depth, stencil that are present
with loadAction `Clear`, with each configured clear value and write mask
applied in the trace before that final clear; and zero clear calls when
no present attachment has loadAction `Clear`. -/
theorem C4_bind_combined_clear (ctx : Ctx) (fb : CustomFramebuffer)
    (pass : RenderPassDesc) (_hinit : fb.isInitialized = true) :
    (¬((attachment0Present fb.core.renderTarget = true ∧
          (pass.colorAttachments 0).loadAction = LoadAction.Clear) ∨
        (fb.core.renderTarget.depthAttachment.texture.isSome = true ∧
          pass.depthAttachment.loadAction = LoadAction.Clear) ∨
        (fb.core.renderTarget.stencilAttachment.texture.isSome = true ∧
          pass.stencilAttachment.loadAction = LoadAction.Clear)) →
      ((CustomFramebuffer.bind ctx fb pass).2).filter isClearEv = []) ∧
    (((attachment0Present fb.core.renderTarget = true ∧
          (pass.colorAttachments 0).loadAction = LoadAction.Clear) ∨
        (fb.core.renderTarget.depthAttachment.texture.isSome = true ∧
          pass.depthAttachment.loadAction = LoadAction.Clear) ∨
        (fb.core.renderTarget.stencilAttachment.texture.isSome = true ∧
          pass.stencilAttachment.loadAction = LoadAction.Clear)) →
      ∃ m, ((CustomFramebuffer.bind ctx fb pass).2).filter isClearEv = [Ev.clearCall m] ∧
        ((CustomFramebuffer.bind ctx fb pass).2).getLast? = some (Ev.clearCall m) ∧
        (Nat.testBit m 14 ↔ (attachment0Present fb.core.renderTarget = true ∧
          (pass.colorAttachments 0).loadAction = LoadAction.Clear)) ∧
        (Nat.testBit m 8 ↔ (fb.core.renderTarget.depthAttachment.texture.isSome = true ∧
          pass.depthAttachment.loadAction = LoadAction.Clear)) ∧
        (Nat.testBit m 10 ↔ (fb.core.renderTarget.stencilAttachment.texture.isSome = true ∧
          pass.stencilAttachment.loadAction = LoadAction.Clear)) ∧
        ((attachment0Present fb.core.renderTarget = true ∧
            (pass.colorAttachments 0).loadAction = LoadAction.Clear) →
          Ev.colorMask true true true true ∈ (CustomFramebuffer.bind ctx fb pass).2 ∧
          Ev.clearColor (pass.colorAttachments 0).clearColor ∈
            (CustomFramebuffer.bind ctx fb pass).2) ∧
        ((fb.core.renderTarget.depthAttachment.texture.isSome = true ∧
            pass.depthAttachment.loadAction = LoadAction.Clear) →
          Ev.depthMask true ∈ (CustomFramebuffer.bind ctx fb pass).2 ∧
          Ev.clearDepthf pass.depthAttachment.clearDepth ∈
            (CustomFramebuffer.bind ctx fb pass).2) ∧
        ((fb.core.renderTarget.stencilAttachment.texture.isSome = true ∧
            pass.stencilAttachment.loadAction = LoadAction.Clear) →
          Ev.stencilMask 255 ∈ (CustomFramebuffer.bind ctx fb pass).2 ∧
          Ev.clearStencil pass.stencilAttachment.clearStencil ∈
            (CustomFramebuffer.bind ctx fb pass).2)) := by
  constructor
  · intro hnone
    simp only [not_or] at hnone
    obtain ⟨nc, nd, ns⟩ := hnone
    simp [CustomFramebuffer.bind, bindBufferEv, List.filter_append,
      filter_clear_bindColorLoop, isClearEv, nc, nd, ns,
      apply_ite (List.filter isClearEv)]
  · intro hany
    by_cases hc : attachment0Present fb.core.renderTarget = true ∧
        (pass.colorAttachments 0).loadAction = LoadAction.Clear <;>
      by_cases hd : fb.core.renderTarget.depthAttachment.texture.isSome = true ∧
          pass.depthAttachment.loadAction = LoadAction.Clear <;>
        by_cases hs : fb.core.renderTarget.stencilAttachment.texture.isSome = true ∧
            pass.stencilAttachment.loadAction = LoadAction.Clear
    · refine ⟨17664, ?_, ?_, iff_of_true (by decide) hc, iff_of_true (by decide) hd,
          iff_of_true (by decide) hs, fun h => ?_, fun h => ?_, fun h => ?_⟩ <;>
        simp [CustomFramebuffer.bind, bindBufferEv, List.filter_append,
        filter_clear_bindColorLoop, isClearEv, hc, hd, hs,
        apply_ite (List.filter isClearEv), List.getLast?_cons, List.getLast?_append,
        List.getLast?_concat, GL_COLOR_BUFFER_BIT, GL_DEPTH_BUFFER_BIT,
        GL_STENCIL_BUFFER_BIT]
    · refine ⟨16640, ?_, ?_, iff_of_true (by decide) hc, iff_of_true (by decide) hd,
          iff_of_false (by decide) hs, fun h => ?_, fun h => ?_, fun h => absurd h hs⟩ <;>
        simp [CustomFramebuffer.bind, bindBufferEv, List.filter_append,
        filter_clear_bindColorLoop, isClearEv, hc, hd, hs,
        apply_ite (List.filter isClearEv), List.getLast?_cons, List.getLast?_append,
        List.getLast?_concat, GL_COLOR_BUFFER_BIT, GL_DEPTH_BUFFER_BIT,
        GL_STENCIL_BUFFER_BIT]
    · refine ⟨17408, ?_, ?_, iff_of_true (by decide) hc, iff_of_false (by decide) hd,
          iff_of_true (by decide) hs, fun h => ?_, fun h => absurd h hd, fun h => ?_⟩ <;>
        simp [CustomFramebuffer.bind, bindBufferEv, List.filter_append,
        filter_clear_bindColorLoop, isClearEv, hc, hd, hs,
        apply_ite (List.filter isClearEv), List.getLast?_cons, List.getLast?_append,
        List.getLast?_concat, GL_COLOR_BUFFER_BIT, GL_DEPTH_BUFFER_BIT,
        GL_STENCIL_BUFFER_BIT]
    · refine ⟨16384, ?_, ?_, iff_of_true (by decide) hc, iff_of_false (by decide) hd,
          iff_of_false (by decide) hs, fun h => ?_, fun h => absurd h hd, fun h => absurd h hs⟩ <;>
        simp [CustomFramebuffer.bind, bindBufferEv, List.filter_append,
        filter_clear_bindColorLoop, isClearEv, hc, hd, hs,
        apply_ite (List.filter isClearEv), List.getLast?_cons, List.getLast?_append,
        List.getLast?_concat, GL_COLOR_BUFFER_BIT, GL_DEPTH_BUFFER_BIT,
        GL_STENCIL_BUFFER_BIT]
    · refine ⟨1280, ?_, ?_, iff_of_false (by decide) hc, iff_of_true (by decide) hd,
          iff_of_true (by decide) hs, fun h => absurd h hc, fun h => ?_, fun h => ?_⟩ <;>
        simp [CustomFramebuffer.bind, bindBufferEv, List.filter_append,
        filter_clear_bindColorLoop, isClearEv, hc, hd, hs,
        apply_ite (List.filter isClearEv), List.getLast?_cons, List.getLast?_append,
        List.getLast?_concat, GL_COLOR_BUFFER_BIT, GL_DEPTH_BUFFER_BIT,
        GL_STENCIL_BUFFER_BIT]
    · refine ⟨256, ?_, ?_, iff_of_false (by decide) hc, iff_of_true (by decide) hd,
          iff_of_false (by decide) hs, fun h => absurd h hc, fun h => ?_, fun h => absurd h hs⟩ <;>
        simp [CustomFramebuffer.bind, bindBufferEv, List.filter_append,
        filter_clear_bindColorLoop, isClearEv, hc, hd, hs,
        apply_ite (List.filter isClearEv), List.getLast?_cons, List.getLast?_append,
        List.getLast?_concat, GL_COLOR_BUFFER_BIT, GL_DEPTH_BUFFER_BIT,
        GL_STENCIL_BUFFER_BIT]
    · refine ⟨1024, ?_, ?_, iff_of_false (by decide) hc, iff_of_false (by decide) hd,
          iff_of_true (by decide) hs, fun h => absurd h hc, fun h => absurd h hd, fun h => ?_⟩ <;>
        simp [CustomFramebuffer.bind, bindBufferEv, List.filter_append,
        filter_clear_bindColorLoop, isClearEv, hc, hd, hs,
        apply_ite (List.filter isClearEv), List.getLast?_cons, List.getLast?_append,
        List.getLast?_concat, GL_COLOR_BUFFER_BIT, GL_DEPTH_BUFFER_BIT,
        GL_STENCIL_BUFFER_BIT]
    · exact absurd hany (by tauto)

/-- C4 witness: the theorem applied to `fbReady` (color 0, depth and
stencil present) with an all-`Load` pass and an all-`Clear` pass. -/
theorem C4_witness :
    (((CustomFramebuffer.bind ctxOkPlain fbReady
        (passUniform LoadAction.Load StoreAction.Store)).2).filter isClearEv = []) ∧
    (∃ m, ((CustomFramebuffer.bind ctxOkPlain fbReady
        (passUniform LoadAction.Clear StoreAction.Store)).2).filter isClearEv =
          [Ev.clearCall m] ∧
      Nat.testBit m 14 ∧ Nat.testBit m 8 ∧ Nat.testBit m 10) := by
  constructor
  · exact (C4_bind_combined_clear ctxOkPlain fbReady
      (passUniform LoadAction.Load StoreAction.Store) rfl).1 (by decide)
  · obtain ⟨m, h1, _, h3, h4, h5, _⟩ := (C4_bind_combined_clear ctxOkPlain fbReady
      (passUniform LoadAction.Clear StoreAction.Store) rfl).2 (Or.inl ⟨rfl, rfl⟩)
    exact ⟨m, h1, h3.mpr ⟨rfl, rfl⟩, h4.mpr ⟨rfl, rfl⟩, h5.mpr ⟨rfl, rfl⟩⟩

/-! ### Claim C8 -/

/-- Helper: the draw-buffer list collected by the attach loop of
`prepareResource` is `GL_COLOR_ATTACHMENT0 + index` for every entry with
a non-null texture, in iteration order. -/
theorem colorAttachLoop_bufs (ctx : Ctx) (mode : FramebufferMode) :
    ∀ l : List (Nat × AttachmentDesc), (colorAttachLoop ctx mode l).2 =
      l.filterMap (fun p => p.2.texture.map (fun _ => GL_COLOR_ATTACHMENT0 + p.1))
  | [] => rfl
  | (i, att) :: tl => by
      cases hat : att.texture <;>
        simp [colorAttachLoop, hat, colorAttachLoop_bufs ctx mode tl]

/-- Helper: `attachAsColor` issues no draw-buffer declaration. -/
theorem filter_db_attachAsColorEv (ctx : Ctx) (mode : FramebufferMode) (t i f m : Nat) :
    (attachAsColorEv ctx mode t i f m).filter isDrawBuffersEv = [] := by
  cases mode
  · rfl
  · by_cases hsm : (ctx.heap t).samples > 1 <;> simp [attachAsColorEv, hsm, isDrawBuffersEv]
  · rfl

/-- Helper: `attachAsDepth` issues no draw-buffer declaration. -/
theorem filter_db_attachAsDepthEv (ctx : Ctx) (mode : FramebufferMode) (t : Nat) :
    (attachAsDepthEv ctx mode t).filter isDrawBuffersEv = [] := by
  cases mode
  · rfl
  · by_cases hsm : (ctx.heap t).samples > 1 <;> simp [attachAsDepthEv, hsm, isDrawBuffersEv]
  · rfl

/-- Helper: `attachAsStencil` issues no draw-buffer declaration. -/
theorem filter_db_attachAsStencilEv (ctx : Ctx) (mode : FramebufferMode) (t : Nat) :
    (attachAsStencilEv ctx mode t).filter isDrawBuffersEv = [] := by
  cases mode
  · rfl
  · by_cases hsm : (ctx.heap t).samples > 1 <;> simp [attachAsStencilEv, hsm, isDrawBuffersEv]
  · rfl

/-- Helper: the attach loop issues no draw-buffer declaration. -/
theorem filter_db_colorAttachLoop (ctx : Ctx) (mode : FramebufferMode) :
    ∀ l, ((colorAttachLoop ctx mode l).1).filter isDrawBuffersEv = []
  | [] => rfl
  | (i, att) :: tl => by
      cases hat : att.texture <;>
        simp [colorAttachLoop, hat, List.filter_append, filter_db_attachAsColorEv,
          filter_db_colorAttachLoop ctx mode tl]

/-- Helper: guard construction issues no draw-buffer declaration. -/
theorem filter_db_mkGuard (ctx : Ctx) : (mkGuard ctx).2.filter isDrawBuffersEv = [] := by
  unfold mkGuard checkFramebufferStatusR
  cases ctx.fbStatus <;> cases hrw : ctx.readWriteFramebuffer <;>
    simp [Result.isOk, isDrawBuffersEv, hrw]

/-- Helper: guard destruction issues no draw-buffer declaration. -/
theorem filter_db_guardRestore (ctx : Ctx) (g : FramebufferBindingGuard) :
    (guardRestore ctx g).filter isDrawBuffersEv = [] := by
  unfold guardRestore
  split_ifs <;> simp [isDrawBuffersEv]

/-- Helper: `hasImplicitColorAttachment` is false whenever the
descriptor's attachment 0 is not implicit-storage. -/
theorem hasImplicit_of_desc (ctx : Ctx) (fb : CustomFramebuffer)
    (h : descHasImplicitColor0 ctx fb.core.renderTarget = false) :
    CustomFramebuffer.hasImplicitColorAttachment ctx fb = false := by
  unfold descHasImplicitColor0 at h
  unfold CustomFramebuffer.hasImplicitColorAttachment
  by_cases hid : fb.core.frameBufferID ≠ 0
  · rw [if_pos hid]
  · rw [if_neg hid]
    exact h

/-- Helper: on a descriptor with no resolve textures, `prepareResource`
returns the completeness-check result, the framebuffer with the fresh
id, and the common trace — no resolve framebuffer is created. -/
theorem prepareResourceAux_no_resolve
    (recur : Nat → CustomFramebuffer → FramebufferDesc →
      Option (Result × CustomFramebuffer × List Ev))
    (ctx : Ctx) (idSupply : Nat) (fb : CustomFramebuffer)
    (hnores : ∀ p ∈ fb.core.renderTarget.colorAttachments, p.2.resolveTexture = none)
    (hdres : fb.core.renderTarget.depthAttachment.resolveTexture = none)
    (hsres : fb.core.renderTarget.stencilAttachment.resolveTexture = none) :
    prepareResourceAux recur ctx idSupply fb =
      some ((checkFramebufferStatusR ctx).1,
        fb.withCore { fb.core with frameBufferID := idSupply },
        prepEvs ctx idSupply fb) := by
  have hrc : fb.core.renderTarget.colorAttachments.filterMap
      (fun p => p.2.resolveTexture.map
        (fun rt' => (p.1, AttachmentDesc.mk (some rt') none))) = [] := by
    rw [List.filterMap_eq_nil_iff]
    intro p hp
    simp [hnores p hp]
  unfold prepareResourceAux prepEvs
  simp only [core_withCore, hrc, hdres, hsres]
  split_ifs <;> simp_all [checkFramebufferStatusR]

/-- Helper: the only draw-buffer declaration in the `prepareResource`
trace is the conditional sorted declaration itself. -/
theorem filter_db_prepEvs (ctx : Ctx) (idSupply : Nat) (fb : CustomFramebuffer) :
    (prepEvs ctx idSupply fb).filter isDrawBuffersEv =
      (if ((colorAttachLoop ctx fb.core.renderTarget.mode
            fb.core.renderTarget.colorAttachments).2.insertionSort (· ≤ ·)).length > 1 then
        [Ev.drawBuffersCall ((colorAttachLoop ctx fb.core.renderTarget.mode
            fb.core.renderTarget.colorAttachments).2.insertionSort (· ≤ ·))]
       else []) := by
  unfold prepEvs
  by_cases hlb : ((colorAttachLoop ctx fb.core.renderTarget.mode
      fb.core.renderTarget.colorAttachments).2.insertionSort (· ≤ ·)).length > 1 <;>
    cases hdt : fb.core.renderTarget.depthAttachment.texture <;>
      cases hst : fb.core.renderTarget.stencilAttachment.texture <;>
        simp [hlb, hdt, hst, List.filter_append, filter_db_colorAttachLoop,
          filter_db_attachAsDepthEv, filter_db_attachAsStencilEv, isDrawBuffersEv,
          bindBufferEv]

/-- C8: for every non-implicit descriptor without resolve textures,
`initialize` declares the draw-buffer list exactly when more than one
color attachment is present, and the declared list is a permutation of
`GL_COLOR_ATTACHMENT0 + i` over the present indices `i`, sorted
ascending; with one or zero present color attachments no draw-buffer
declaration is made. -/
theorem C8_draw_buffer_declaration (fuel : Nat) (ctx : Ctx) (idSupply : Nat)
    (fb : CustomFramebuffer) (desc : FramebufferDesc)
    (hinit : fb.isInitialized = false)
    (himp : descHasImplicitColor0 ctx desc = false)
    (hnores : ∀ p ∈ desc.colorAttachments, p.2.resolveTexture = none)
    (hdres : desc.depthAttachment.resolveTexture = none)
    (hsres : desc.stencilAttachment.resolveTexture = none) :
    ∃ r fb' evs, initializeFB (fuel + 1) ctx idSupply fb desc = some (r, fb', evs) ∧
      (1 < (desc.colorAttachments.filterMap
          (fun p => p.2.texture.map (fun _ => GL_COLOR_ATTACHMENT0 + p.1))).length →
        ∃ l, evs.filter isDrawBuffersEv = [Ev.drawBuffersCall l] ∧
          l.Perm (desc.colorAttachments.filterMap
            (fun p => p.2.texture.map (fun _ => GL_COLOR_ATTACHMENT0 + p.1))) ∧
          l.Sorted (· ≤ ·)) ∧
      ((desc.colorAttachments.filterMap
          (fun p => p.2.texture.map (fun _ => GL_COLOR_ATTACHMENT0 + p.1))).length ≤ 1 →
        evs.filter isDrawBuffersEv = []) := by
  have himp' : CustomFramebuffer.hasImplicitColorAttachment ctx
      (fb.withCore { fb.core with initialized := true, renderTarget := desc }) = false :=
    hasImplicit_of_desc ctx _ (by rw [core_withCore]; exact himp)
  have hprep := prepareResourceAux_no_resolve
    (fun i f d => initializeFB fuel ctx i f d) ctx idSupply
    (fb.withCore { fb.core with initialized := true, renderTarget := desc })
    (by rw [core_withCore]; exact hnores)
    (by rw [core_withCore]; exact hdres)
    (by rw [core_withCore]; exact hsres)
  have heq : initializeFB (fuel + 1) ctx idSupply fb desc =
      some ((checkFramebufferStatusR ctx).1,
        (fb.withCore { fb.core with initialized := true, renderTarget := desc }).withCore
          { (fb.withCore { fb.core with initialized := true, renderTarget := desc }).core
              with frameBufferID := idSupply },
        (mkGuard ctx).2 ++
          prepEvs ctx idSupply
            (fb.withCore { fb.core with initialized := true, renderTarget := desc }) ++
          guardRestore ctx (mkGuard ctx).1) := by
    simp only [initializeFB]
    rw [if_neg (by simp [hinit]), if_neg (by simp [himp']), hprep]
  refine ⟨_, _, _, heq, ?_, ?_⟩
  · intro hlen
    have hlb : ((colorAttachLoop ctx desc.mode desc.colorAttachments).2.insertionSort
        (· ≤ ·)).length > 1 := by
      rw [List.length_insertionSort, colorAttachLoop_bufs]
      exact hlen
    refine ⟨(colorAttachLoop ctx desc.mode desc.colorAttachments).2.insertionSort (· ≤ ·),
      ?_, ?_, ?_⟩
    · rw [List.filter_append, List.filter_append, filter_db_mkGuard,
        filter_db_guardRestore, filter_db_prepEvs]
      simp only [core_withCore]
      rw [if_pos hlb]
      simp
    · rw [colorAttachLoop_bufs]
      exact List.perm_insertionSort _ _
    · exact List.sorted_insertionSort _ _
  · intro hlen
    have hlb : ¬((colorAttachLoop ctx desc.mode desc.colorAttachments).2.insertionSort
        (· ≤ ·)).length > 1 := by
      rw [List.length_insertionSort, colorAttachLoop_bufs]
      omega
    rw [List.filter_append, List.filter_append, filter_db_mkGuard,
      filter_db_guardRestore, filter_db_prepEvs]
    simp only [core_withCore]
    rw [if_neg hlb]
    simp

/-- C8 witness: the scenario from the spec — two color attachments at
indices 0 and 2, no depth/stencil — declares
`[COLOR_ATTACHMENT0, COLOR_ATTACHMENT2]`, and a single-attachment
descriptor makes no declaration. -/
theorem C8_witness :
    (∃ r fb' evs, initializeFB 2 ctxOkPlain 1 CustomFramebuffer.new descSparse02 =
        some (r, fb', evs) ∧
      ∃ l, evs.filter isDrawBuffersEv = [Ev.drawBuffersCall l] ∧
        l.Perm [GL_COLOR_ATTACHMENT0, GL_COLOR_ATTACHMENT0 + 2] ∧
        l.Sorted (· ≤ ·)) ∧
    (∃ r fb' evs, initializeFB 2 ctxOkPlain 1 CustomFramebuffer.new descColor0 =
        some (r, fb', evs) ∧ evs.filter isDrawBuffersEv = []) := by
  constructor
  · obtain ⟨r, fb', evs, h1, h2, -⟩ := C8_draw_buffer_declaration 1 ctxOkPlain 1
      CustomFramebuffer.new descSparse02 rfl rfl (by decide) rfl rfl
    obtain ⟨l, hl1, hl2, hl3⟩ := h2 (by decide)
    exact ⟨r, fb', evs, h1, l, hl1, hl2, hl3⟩
  · obtain ⟨r, fb', evs, h1, -, h3⟩ := C8_draw_buffer_declaration 1 ctxOkPlain 1
      CustomFramebuffer.new descColor0 rfl rfl (by decide) rfl rfl
    exact ⟨r, fb', evs, h1, h3 (by decide)⟩


/-! ### Claim C1 -/

/-- Helper: the completeness-check result carries code `Ok` or
`RuntimeError`, never anything else. -/
theorem checkStatus_code (ctx : Ctx) :
    (checkFramebufferStatusR ctx).1.code = Code.Ok ∨
    (checkFramebufferStatusR ctx).1.code = Code.RuntimeError := by
  unfold checkFramebufferStatusR
  cases ctx.fbStatus <;> simp

/-- Helper: some attachment declares a resolve texture iff the collected
resolve map is non-empty. -/
theorem resolveColorOf_ne_nil (l : List (Nat × AttachmentDesc))
    (h : ∃ p ∈ l, p.2.resolveTexture.isSome = true) : resolveColorOf l ≠ [] := by
  obtain ⟨p, hp, hsome⟩ := h
  intro hnil
  rw [resolveColorOf, List.filterMap_eq_nil_iff] at hnil
  have := hnil p hp
  simp [Option.map_eq_none'] at this
  rw [this] at hsome
  simp at hsome

/-- Helper: an attachment without a resolve texture makes the collected
resolve map strictly shorter than the attachment map. -/
theorem length_resolveColorOf_lt (l : List (Nat × AttachmentDesc))
    (h : ∃ p ∈ l, p.2.resolveTexture = none) :
    (resolveColorOf l).length < l.length := by
  induction l with
  | nil => simp at h
  | cons hd tl ih =>
      obtain ⟨p, hp, hnone⟩ := h
      rcases List.mem_cons.mp hp with rfl | hmem
      · rw [resolveColorOf, List.filterMap_cons, hnone]
        have := List.length_filterMap_le
          (fun p : Nat × AttachmentDesc => p.2.resolveTexture.map
            (fun rt' => (p.1, AttachmentDesc.mk (some rt') none))) tl
        simp only [Option.map_none', List.length_cons]
        omega
      · rw [resolveColorOf, List.filterMap_cons]
        have hih := ih ⟨p, hmem, hnone⟩
        rw [resolveColorOf] at hih
        cases hd.2.resolveTexture <;> simp only [List.length_cons] <;> simp <;> omega

/-- Helper: when every attachment declares a resolve texture the
collected resolve map has the same length as the attachment map. -/
theorem length_resolveColorOf_eq (l : List (Nat × AttachmentDesc))
    (h : ∀ p ∈ l, p.2.resolveTexture.isSome = true) :
    (resolveColorOf l).length = l.length := by
  induction l with
  | nil => rfl
  | cons hd tl ih =>
      have hhd := h hd (List.mem_cons_self hd tl)
      obtain ⟨rt', hrt⟩ := Option.isSome_iff_exists.mp hhd
      rw [resolveColorOf, List.filterMap_cons, hrt]
      simp only [Option.map_some', List.length_cons]
      rw [← resolveColorOf, ih (fun p hp => h p (List.mem_cons_of_mem hd hp))]

/-- Helper: every entry of the collected resolve map declares no resolve
texture of its own. -/
theorem resolveColorOf_no_resolve (l : List (Nat × AttachmentDesc)) :
    ∀ p ∈ resolveColorOf l, p.2.resolveTexture = none := by
  intro p hp
  rw [resolveColorOf, List.mem_filterMap] at hp
  obtain ⟨a, -, hfa⟩ := hp
  rw [Option.map_eq_some'] at hfa
  obtain ⟨rt', -, hfa⟩ := hfa
  rw [← hfa]

/-- Helper: on a complete framebuffer, a descriptor declaring a resolve
texture on some but not all color attachments makes `prepareResource`
fail with `ArgumentInvalid`, leaving the framebuffer (and in particular
its resolve-framebuffer slot) otherwise untouched. -/
theorem prepareResourceAux_partial_resolve
    (recur : Nat → CustomFramebuffer → FramebufferDesc →
      Option (Result × CustomFramebuffer × List Ev))
    (ctx : Ctx) (idSupply : Nat) (fb : CustomFramebuffer)
    (hok : ctx.fbStatus = FbStatus.complete)
    (hsome : ∃ p ∈ fb.core.renderTarget.colorAttachments, p.2.resolveTexture.isSome = true)
    (hnotall : ∃ p ∈ fb.core.renderTarget.colorAttachments, p.2.resolveTexture = none) :
    prepareResourceAux recur ctx idSupply fb =
      some (⟨Code.ArgumentInvalid,
        "If resolve texture is specified on a color attachment it must be specified on all of them"⟩,
        fb.withCore { fb.core with frameBufferID := idSupply },
        prepEvs ctx idSupply fb) := by
  have hne := resolveColorOf_ne_nil _ hsome
  have hlt := length_resolveColorOf_lt _ hnotall
  rw [resolveColorOf] at hne hlt
  unfold prepareResourceAux prepEvs
  simp only [core_withCore]
  split_ifs with h1 h2 <;>
    first
      | rfl
      | exact absurd (by simp [checkFramebufferStatusR, hok, Result.isOk]) h1
      | exact absurd ⟨by simpa using hne, by omega⟩ h2

/-- Helper: on a descriptor with no resolve textures at all, `initialize`
can only return the code `Ok` or `RuntimeError`. -/
theorem initializeFB_no_resolve_code (fuel idSupply : Nat) (ctx : Ctx)
    (fb : CustomFramebuffer) (desc : FramebufferDesc)
    (hno : ∀ p ∈ desc.colorAttachments, p.2.resolveTexture = none)
    (hd : desc.depthAttachment.resolveTexture = none)
    (hs : desc.stencilAttachment.resolveTexture = none) :
    ∀ x, initializeFB fuel ctx idSupply fb desc = some x →
      x.1.code = Code.Ok ∨ x.1.code = Code.RuntimeError := by
  intro x heq
  cases fuel with
  | zero => simp [initializeFB] at heq
  | succ n =>
      simp only [initializeFB] at heq
      by_cases hini : fb.isInitialized = true
      · rw [if_pos hini] at heq
        injection heq with h
        subst h
        right; rfl
      · rw [if_neg hini] at heq
        by_cases himpl : CustomFramebuffer.hasImplicitColorAttachment ctx
            (fb.withCore { fb.core with initialized := true, renderTarget := desc }) = true
        · rw [if_pos himpl] at heq
          injection heq with h
          subst h
          left; rfl
        · rw [if_neg himpl] at heq
          rw [prepareResourceAux_no_resolve (fun i f d => initializeFB n ctx i f d)
            ctx idSupply _ (by rw [core_withCore]; exact hno)
            (by rw [core_withCore]; exact hd) (by rw [core_withCore]; exact hs)] at heq
          injection heq with h
          subst h
          exact checkStatus_code ctx

/-- Helper: under the all-or-none resolve discipline, `prepareResource`
never returns `ArgumentInvalid`. -/
theorem prepareResourceAux_code_all_or_none (fuelN idSupply : Nat) (ctx : Ctx)
    (fb : CustomFramebuffer)
    (hall : (∀ p ∈ fb.core.renderTarget.colorAttachments, p.2.resolveTexture.isSome = true) ∨
      (∀ p ∈ fb.core.renderTarget.colorAttachments, p.2.resolveTexture = none)) :
    ∀ x, prepareResourceAux (fun i f d => initializeFB fuelN ctx i f d)
        ctx idSupply fb = some x → x.1.code ≠ Code.ArgumentInvalid := by
  intro x heq
  simp only [prepareResourceAux, core_withCore] at heq
  have hcond : ¬((!(resolveColorOf fb.core.renderTarget.colorAttachments).isEmpty) = true ∧
      (resolveColorOf fb.core.renderTarget.colorAttachments).length ≠
        fb.core.renderTarget.colorAttachments.length) := by
    rcases hall with hall | hall
    · rintro ⟨-, hne⟩
      exact hne (length_resolveColorOf_eq _ hall)
    · rintro ⟨hcr, -⟩
      have hemp : resolveColorOf fb.core.renderTarget.colorAttachments = [] := by
        rw [resolveColorOf, List.filterMap_eq_nil_iff]
        intro p hp
        simp [hall p hp]
      rw [hemp] at hcr
      simp at hcr
  rw [resolveColorOf] at hcond
  rw [if_neg hcond] at heq
  by_cases hok : (checkFramebufferStatusR ctx).1.isOk = true
  · rw [if_neg (not_not_intro hok)] at heq
    split at heq
    · -- a resolve framebuffer is created; its nested result is propagated
      split at heq
      · exact absurd heq (by simp)
      · rename_i r2 cfb ev2 hrec
        injection heq with h
        subst h
        have hcode := initializeFB_no_resolve_code fuelN (idSupply + 1) ctx
          CustomFramebuffer.new _
          (fun p hp => resolveColorOf_no_resolve fb.core.renderTarget.colorAttachments p
            (by rw [resolveColorOf]; exact hp))
          (by
            cases hdt : fb.core.renderTarget.depthAttachment.resolveTexture <;>
              simp [AttachmentDesc.empty])
          (by
            cases hst : fb.core.renderTarget.stencilAttachment.resolveTexture <;>
              simp [AttachmentDesc.empty])
          (r2, cfb, ev2) hrec
        show r2.code ≠ Code.ArgumentInvalid
        rcases hcode with h | h <;> rw [h] <;> decide
    · injection heq with h
      subst h
      rcases checkStatus_code ctx with h | h <;> simp [h]
  · rw [if_pos hok] at heq
    injection heq with h
    subst h
    rcases checkStatus_code ctx with h | h <;> simp [h]

/-- C1: if some color attachment declares a resolve texture but not every
one does, `initialize` (on an uninitialized, non-implicit target whose
driver reports completeness) fails with `ArgumentInvalid` and does not
construct the nested resolve framebuffer; and whenever every color
attachment declares a resolve texture, or none does, no `ArgumentInvalid`
is ever reported. -/
theorem C1_resolve_all_or_none (fuel idSupply : Nat) (ctx : Ctx) (fb : CustomFramebuffer)
    (desc : FramebufferDesc) :
    (fb.isInitialized = false →
     descHasImplicitColor0 ctx desc = false →
     ctx.fbStatus = FbStatus.complete →
     (∃ p ∈ desc.colorAttachments, p.2.resolveTexture.isSome = true) →
     (∃ p ∈ desc.colorAttachments, p.2.resolveTexture = none) →
      ∃ fb' evs, initializeFB (fuel + 1) ctx idSupply fb desc =
        some (⟨Code.ArgumentInvalid,
          "If resolve texture is specified on a color attachment it must be specified on all of them"⟩,
          fb', evs) ∧ fb'.resolveFramebuffer = fb.resolveFramebuffer) ∧
    (((∀ p ∈ desc.colorAttachments, p.2.resolveTexture.isSome = true) ∨
      (∀ p ∈ desc.colorAttachments, p.2.resolveTexture = none)) →
      ∀ r fb' evs, initializeFB fuel ctx idSupply fb desc = some (r, fb', evs) →
        r.code ≠ Code.ArgumentInvalid) := by
  constructor
  · intro hinit himp hok hsome hnotall
    have himp' : CustomFramebuffer.hasImplicitColorAttachment ctx
        (fb.withCore { fb.core with initialized := true, renderTarget := desc }) = false :=
      hasImplicit_of_desc ctx _ (by rw [core_withCore]; exact himp)
    have hprep := prepareResourceAux_partial_resolve
      (fun i f d => initializeFB fuel ctx i f d) ctx idSupply
      (fb.withCore { fb.core with initialized := true, renderTarget := desc })
      hok (by rw [core_withCore]; exact hsome) (by rw [core_withCore]; exact hnotall)
    refine ⟨(fb.withCore { fb.core with initialized := true, renderTarget := desc }).withCore
        { (fb.withCore { fb.core with initialized := true, renderTarget := desc }).core
            with frameBufferID := idSupply },
      (mkGuard ctx).2 ++
        prepEvs ctx idSupply
          (fb.withCore { fb.core with initialized := true, renderTarget := desc }) ++
        guardRestore ctx (mkGuard ctx).1, ?_, ?_⟩
    · simp only [initializeFB]
      rw [if_neg (by simp [hinit]), if_neg (by simp [himp']), hprep]
    · rw [resolve_withCore, resolve_withCore]
  · intro hall r fb' evs heq
    cases fuel with
    | zero => simp [initializeFB] at heq
    | succ n =>
        simp only [initializeFB] at heq
        by_cases hini : fb.isInitialized = true
        · rw [if_pos hini] at heq
          injection heq with h
          simp only [Prod.mk.injEq] at h
          obtain ⟨h1, -, -⟩ := h
          rw [← h1]
          decide
        · rw [if_neg hini] at heq
          by_cases himpl : CustomFramebuffer.hasImplicitColorAttachment ctx
              (fb.withCore { fb.core with initialized := true, renderTarget := desc }) = true
          · rw [if_pos himpl] at heq
            injection heq with h
            simp only [Prod.mk.injEq] at h
            obtain ⟨h1, -, -⟩ := h
            rw [← h1]
            decide
          · rw [if_neg himpl] at heq
            cases hp : prepareResourceAux (fun i f d => initializeFB n ctx i f d)
                ctx idSupply
                (fb.withCore { fb.core with initialized := true, renderTarget := desc }) with
            | none => rw [hp] at heq; simp at heq
            | some y =>
                obtain ⟨r2, fb2, ev2⟩ := y
                rw [hp] at heq
                injection heq with h
                simp only [Prod.mk.injEq] at h
                obtain ⟨h1, -, -⟩ := h
                rw [← h1]
                exact prepareResourceAux_code_all_or_none n idSupply ctx _
                  (by rw [core_withCore]; exact hall) (r2, fb2, ev2) hp

/-- C1 witness: the partial-resolve descriptor fails with
`ArgumentInvalid` and builds no resolve framebuffer; the no-resolve
descriptor never yields `ArgumentInvalid`. -/
theorem C1_witness :
    (∃ fb' evs, initializeFB 2 ctxOkPlain 1 CustomFramebuffer.new descPartialResolve =
      some (⟨Code.ArgumentInvalid,
        "If resolve texture is specified on a color attachment it must be specified on all of them"⟩,
        fb', evs) ∧ fb'.resolveFramebuffer = CustomFramebuffer.new.resolveFramebuffer) ∧
    (∀ r fb' evs, initializeFB 2 ctxOkPlain 1 CustomFramebuffer.new descColor0 =
        some (r, fb', evs) → r.code ≠ Code.ArgumentInvalid) :=
  ⟨(C1_resolve_all_or_none 1 1 ctxOkPlain CustomFramebuffer.new descPartialResolve).1
      rfl rfl rfl ⟨(0, ⟨some 1, some 10⟩), by decide, rfl⟩
      ⟨(1, ⟨some 2, none⟩), by decide, rfl⟩,
   (C1_resolve_all_or_none 2 1 ctxOkPlain CustomFramebuffer.new descColor0).2
      (Or.inr (by decide))⟩

/-! ### Claim C10 -/

/-- Helper: `prepareResource` never changes the `initialized` flag. -/
theorem prepareResourceAux_initialized
    (recur : Nat → CustomFramebuffer → FramebufferDesc →
      Option (Result × CustomFramebuffer × List Ev))
    (ctx : Ctx) (idSupply : Nat) (fb : CustomFramebuffer) :
    ∀ x, prepareResourceAux recur ctx idSupply fb = some x →
      x.2.1.core.initialized = fb.core.initialized := by
  intro x heq
  simp only [prepareResourceAux, core_withCore] at heq
  by_cases hok : (checkFramebufferStatusR ctx).1.isOk = true
  · rw [if_neg (not_not_intro hok)] at heq
    by_cases hcond : ((!(List.filterMap
          (fun p => Option.map (fun rt' => (p.1, AttachmentDesc.mk (some rt') none))
            p.2.resolveTexture) fb.core.renderTarget.colorAttachments).isEmpty) = true ∧
        (List.filterMap
          (fun p => Option.map (fun rt' => (p.1, AttachmentDesc.mk (some rt') none))
            p.2.resolveTexture) fb.core.renderTarget.colorAttachments).length ≠
          fb.core.renderTarget.colorAttachments.length)
    · rw [if_pos hcond] at heq
      injection heq with h
      subst h
      simp [core_withCore]
    · rw [if_neg hcond] at heq
      split at heq
      · split at heq
        · exact absurd heq (by simp)
        · rename_i r2 cfb ev2 hrec
          injection heq with h
          subst h
          simp [CustomFramebuffer.core]
      · injection heq with h
        subst h
        simp [core_withCore]
  · rw [if_pos hok] at heq
    injection heq with h
    subst h
    simp [core_withCore]

/-- C10: `initialize` marks the object initialized before attaching
resources and validating completeness, so whatever result a first
`initialize` on an uninitialized object returns (success, a completeness
`RuntimeError`, or a partial-resolve `ArgumentInvalid`), the object ends
up initialized, and every subsequent `initialize` — under any context,
any descriptor — fails with the already-initialized `RuntimeError` and
changes nothing: a failed initialize is not atomic and cannot be
retried. -/
theorem C10_initialize_marks_before_validation (fuel fuel2 idSupply idSupply2 : Nat)
    (ctx ctx2 : Ctx) (fb : CustomFramebuffer) (desc desc2 : FramebufferDesc)
    (hinit : fb.isInitialized = false) :
    ∀ r fb1 evs, initializeFB (fuel + 1) ctx idSupply fb desc = some (r, fb1, evs) →
      fb1.isInitialized = true ∧
      initializeFB (fuel2 + 1) ctx2 idSupply2 fb1 desc2 =
        some (⟨Code.RuntimeError, "Framebuffer already initialized."⟩, fb1, []) := by
  intro r fb1 evs heq
  have hmark : fb1.isInitialized = true := by
    simp only [initializeFB] at heq
    rw [if_neg (by simp [hinit])] at heq
    by_cases himpl : CustomFramebuffer.hasImplicitColorAttachment ctx
        (fb.withCore { fb.core with initialized := true, renderTarget := desc }) = true
    · rw [if_pos himpl] at heq
      injection heq with h
      simp only [Prod.mk.injEq] at h
      obtain ⟨-, h2, -⟩ := h
      rw [← h2]
      simp [CustomFramebuffer.isInitialized, core_withCore]
    · rw [if_neg himpl] at heq
      cases hp : prepareResourceAux (fun i f d => initializeFB fuel ctx i f d)
          ctx idSupply
          (fb.withCore { fb.core with initialized := true, renderTarget := desc }) with
      | none => rw [hp] at heq; simp at heq
      | some y =>
          obtain ⟨r2, fb2, ev2⟩ := y
          rw [hp] at heq
          injection heq with h
          simp only [Prod.mk.injEq] at h
          obtain ⟨-, h2, -⟩ := h
          have hpres := prepareResourceAux_initialized _ ctx idSupply _ (r2, fb2, ev2) hp
          rw [← h2]
          simp only [CustomFramebuffer.isInitialized]
          simp only [core_withCore] at hpres
          simpa using hpres
  exact ⟨hmark, initializeFB_already_initialized fuel2 idSupply2 ctx2 fb1 desc2 hmark⟩

/-- C10 witness: a FAILED first initialize (the driver reports an
incomplete framebuffer, so the result is a `RuntimeError`) still leaves
the object initialized, and a retry fails with the already-initialized
error. -/
theorem C10_witness :
    ∃ r fb1 evs,
      initializeFB 1 ctxIncomplete 1 CustomFramebuffer.new descColor0 =
        some (r, fb1, evs) ∧
      r.code = Code.RuntimeError ∧
      fb1.isInitialized = true ∧
      initializeFB 1 ctxIncomplete 5 fb1 descColor0 =
        some (⟨Code.RuntimeError, "Framebuffer already initialized."⟩, fb1, []) := by
  rcases hcomp : initializeFB 1 ctxIncomplete 1 CustomFramebuffer.new descColor0 with
    _ | ⟨r, fb1, evs⟩
  · have hsome : (initializeFB 1 ctxIncomplete 1 CustomFramebuffer.new descColor0).isSome =
        true := by decide
    rw [hcomp] at hsome
    simp at hsome
  · obtain ⟨h1, h2⟩ := C10_initialize_marks_before_validation 0 0 1 5 ctxIncomplete
      ctxIncomplete CustomFramebuffer.new descColor0 descColor0 rfl r fb1 evs hcomp
    have hr : (initializeFB 1 ctxIncomplete 1 CustomFramebuffer.new descColor0).map
        (fun x => x.1.code) = some Code.RuntimeError := by decide
    rw [hcomp] at hr
    simp only [Option.map_some', Option.some.injEq] at hr
    exact ⟨r, fb1, evs, rfl, hr, h1, h2⟩

end IglGL
